import Mathlib

/-!
ArduRoomba: the Open Interface layer and its facade

A shallow embedding of `src/RoombaOI.h`, `src/RoombaOI.cpp`, `src/ArduRoomba.h` and
`src/ArduRoomba.cpp`.

Conventions of the embedding

* A `uint8_t` value is a `Nat` below 256 and an `int16_t` value an `Int` in
  `[-32768, 32767]`; the theorems carry these bounds as hypotheses.  Where the
  C++ code converts a value to a narrower type the conversion is explicit
  (`toUInt8`, `toUInt16`, `toInt16`).
* The object and the hardware it drives are one record: the private fields of
  `RoombaOI`, the bytes written to the SoftwareSerial port (`tx`, oldest
  first), the bytes the port still has to hand out (`rx`, next byte first), a
  log of pin, delay and port events (`hw`) and the lines printed on the debug
  console (`console`).
* Time is not measured.  `rx` lists the bytes that reach the board in time for
  the read that consumes them; when `rx` is empty no further byte arrives, so
  a busy-wait on an empty `rx` ends at its deadline.  The `timeout` arguments
  of `readByte` and `readBytes`, whose loops compare `millis() - start` with
  the timeout, are kept in the signatures for that reason only.
* `clock` is what the millisecond clock reads while the call under study
  runs; the embedding never advances it, and every theorem holds for every
  reading unless it says otherwise.  It is read by `readStreamData`, whose
  header window ends at `millis() + 100`, a sum that wraps at 2^32.
* A pointer to a buffer the code writes is `Option (Nat → Nat)`: `none` is the
  null pointer, `some m` the memory behind the pointer, `m i` being the byte
  at offset `i`.  A pointer to an array the code only reads is
  `Option (List Nat)`.
* `ArduRoomba::playTone` and `ArduRoomba::beep` are not embedded.  `playTone` calls
  `_oi.sendCommand`, which `RoombaOI.h` declares under `private:`, and neither header has a
  friend declaration: the function is ill-formed and has no behaviour to embed.
* The two read loops recurse on a fuel argument.  `readBytesLoop_fuel` and
  `readStreamLoop_fuel` show that the fuel the methods pass is never what ends
  a loop.
-/

set_option linter.unusedVariables false

/-! ## Constants of `RoombaOI.h` -/

def OI_START : Nat := 128
def OI_BAUD : Nat := 129
def OI_SAFE : Nat := 131
def OI_FULL : Nat := 132
def OI_POWER : Nat := 133
def OI_SPOT : Nat := 134
def OI_CLEAN : Nat := 135
def OI_MAX_CLEAN : Nat := 136
def OI_DRIVE : Nat := 137
def OI_MOTORS : Nat := 138
def OI_LEDS : Nat := 139
def OI_SONG : Nat := 140
def OI_PLAY : Nat := 141
def OI_SENSORS : Nat := 142
def OI_SEEK_DOCK : Nat := 143
def OI_DRIVE_DIRECT : Nat := 145
def OI_STREAM : Nat := 148

def SENSOR_BUMPS_DROPS : Nat := 7
def SENSOR_WALL : Nat := 8
def SENSOR_VOLTAGE : Nat := 22
def SENSOR_CURRENT : Nat := 23

def DRIVE_STRAIGHT : Int := 32768
def DRIVE_TURN_CCW : Int := 1
def DRIVE_TURN_CW : Int := -1
def MAX_VELOCITY : Int := 500
def MIN_VELOCITY : Int := -500

/-! ## Integer conversions of C++ -/

/-- Conversion of an `int` to `uint8_t`: the value modulo 256. -/
def toUInt8 (x : Int) : Nat := (x % 256).toNat

/-- Conversion of an `int` to `uint16_t`: the value modulo 65536. -/
def toUInt16 (x : Int) : Nat := (x % 65536).toNat

/-- Conversion of an `int` to `int16_t`: two's-complement wrap to 16 bits. -/
def toInt16 (x : Int) : Int := (x + 32768) % 65536 - 32768

/-- The expression `(x >> 8) & 0xFF` stored into a `uint8_t`. -/
def highByte (x : Int) : Nat := toUInt8 (Int.land (Int.shiftRight x 8) 0xFF)

/-- The expression `x & 0xFF` stored into a `uint8_t`. -/
def lowByte (x : Int) : Nat := toUInt8 (Int.land x 0xFF)

/-! ## What the claims compare the code with -/

/-- The 16-bit two's-complement bit pattern of an integer, as a number. -/
def twosComplement16 (x : Int) : Nat := (x % 65536).toNat

/-- High byte of the 16-bit two's-complement pattern. -/
def hi (x : Int) : Nat := twosComplement16 x / 256

/-- Low byte of the 16-bit two's-complement pattern. -/
def lo (x : Int) : Nat := twosComplement16 x % 256

/-- Saturation of a velocity to `[-500, 500]`. -/
def saturate (v : Int) : Int := max (-500) (min 500 v)

/-! ## Hardware events and debug console -/

/-- A call on the Arduino runtime or on the serial port that is not a byte transfer. -/
inductive HwEvent where
  | pinMode (pin : Nat) (output : Bool)
  | digitalWrite (pin : Nat) (high : Bool)
  | delay (ms : Nat)
  | serialBegin (baud : Nat)
  | serialEnd
  deriving DecidableEq, Repr

/-- One line on the debug console: who printed it, the message and the value printed after it. -/
structure DebugLine where
  source : String
  msg : String
  value : Option Int
  deriving DecidableEq, Repr

/-- The `RoombaOI` object together with the serial port and the hardware behind it. -/
structure RoombaOI where
  rxPin : Nat
  txPin : Nat
  brcPin : Nat
  connected : Bool
  debug : Bool
  tx : List Nat
  rx : List Nat
  hw : List HwEvent
  console : List DebugLine
  clock : Nat
  deriving DecidableEq, Repr

namespace RoombaOI

/-- Constructor `RoombaOI::RoombaOI`; `rx` is what the channel is going to deliver, and the
clock reads 0. -/
def new (rxPin txPin brcPin : Nat) (rx : List Nat) : RoombaOI :=
  { rxPin := rxPin, txPin := txPin, brcPin := brcPin, connected := false, debug := false,
    tx := [], rx := rx, hw := [], console := [], clock := 0 }

/-- Accessor `isConnected`. -/
def isConnected (s : RoombaOI) : Bool := s.connected

/-- Setter `setDebug`. -/
def setDebug (enable : Bool) (s : RoombaOI) : RoombaOI := { s with debug := enable }

/-! ### The serial port and the Arduino runtime -/

/-- Call `_serial->write(b)`. -/
def serialWrite (b : Nat) (s : RoombaOI) : RoombaOI := { s with tx := s.tx ++ [b] }

/-- Call `_serial->available()`. -/
def serialAvailable (s : RoombaOI) : Bool :=
  match s.rx with
  | [] => false
  | _ :: _ => true

/-- Call `_serial->read()`: the next byte, or -1 when none is pending. -/
def serialRead (s : RoombaOI) : Int × RoombaOI :=
  match s.rx with
  | [] => (-1, s)
  | b :: rest => ((b : Int), { s with rx := rest })

/-- Call `millis()`: the millisecond clock, an `unsigned long` of 32 bits. -/
def millis (s : RoombaOI) : Nat := s.clock % 4294967296

/-- The state `s` met while the clock reads `c`. -/
def atClock (c : Nat) (s : RoombaOI) : RoombaOI := { s with clock := c }

/-- Record a runtime event. -/
def emit (e : HwEvent) (s : RoombaOI) : RoombaOI := { s with hw := s.hw ++ [e] }

/-- Call `delay(ms)`. -/
def delay (ms : Nat) (s : RoombaOI) : RoombaOI := emit (HwEvent.delay ms) s

/-- Method `debugPrint(msg)`; every message in the source is a non-null literal. -/
def debugPrint (msg : String) (s : RoombaOI) : RoombaOI :=
  if s.debug then { s with console := s.console ++ [⟨"RoombaOI", msg, none⟩] } else s

/-- Method `debugPrint(msg, value)`. -/
def debugPrintValue (msg : String) (value : Int) (s : RoombaOI) : RoombaOI :=
  if s.debug then { s with console := s.console ++ [⟨"RoombaOI", msg, some value⟩] } else s

/-! ### Private helpers -/

/-- Method `pulseDD`: three low/high pulses on the BRC pin. -/
def pulseDD (s : RoombaOI) : RoombaOI :=
  let s := debugPrint "Pulsing BRC pin" s
  (List.range 3).foldl
    (fun s _ =>
      let s := emit (HwEvent.digitalWrite s.brcPin false) s
      let s := delay 100 s
      let s := emit (HwEvent.digitalWrite s.brcPin true) s
      delay 100 s)
    s

/-- Overload `sendCommand(cmd)`. -/
def sendCommand (cmd : Nat) (s : RoombaOI) : RoombaOI :=
  if s.connected then serialWrite cmd s else s

/-- Overload `sendCommand(cmd, param)`. -/
def sendCommand1 (cmd param : Nat) (s : RoombaOI) : RoombaOI :=
  if s.connected then
    let s := serialWrite cmd s
    serialWrite param s
  else s

/-- Overload `sendCommand(cmd, param1, param2)`. -/
def sendCommand2 (cmd param1 param2 : Nat) (s : RoombaOI) : RoombaOI :=
  if s.connected then
    let s := serialWrite cmd s
    let s := serialWrite param1 s
    serialWrite param2 s
  else s

/-- The loop `for (i = 0; i < n; i++) _serial->write(a[i])`. -/
def writeArray (a : List Nat) (n : Nat) (s : RoombaOI) : RoombaOI :=
  (List.range n).foldl (fun s i => serialWrite (a.getD i 0) s) s

/-- Overload `sendCommand(cmd, params, numParams)`. -/
def sendCommandN (cmd : Nat) (params : Option (List Nat)) (numParams : Nat) (s : RoombaOI) :
    RoombaOI :=
  match params with
  | some a =>
    if s.connected then
      let s := serialWrite cmd s
      writeArray a numParams s
    else s
  | none => s

/-- Method `sendInt16`. -/
def sendInt16 (value : Int) (s : RoombaOI) : RoombaOI :=
  if s.connected then
    let s := serialWrite (highByte value) s
    serialWrite (lowByte value) s
  else s

/-- Method `readByte(timeout)`: the wait ends when a byte is pending or at the deadline;
the byte is then read if there is one, and 0 is returned otherwise. -/
def readByte (timeout : Nat) (s : RoombaOI) : Nat × RoombaOI :=
  if serialAvailable s then
    let r := serialRead s
    (toUInt8 r.1, r.2)
  else (0, s)

/-- Store `buffer[i] = v`. -/
def store (buffer : Nat → Nat) (i v : Nat) : Nat → Nat :=
  fun j => if j = i then v else buffer j

/-- The loop of `readBytes`, at most `fuel` more iterations that read a byte.  An iteration
that finds nothing pending is the last one: the loop then spins until the deadline. -/
def readBytesLoop (numBytes : Nat) :
    Nat → Nat → (Nat → Nat) → RoombaOI → Nat × (Nat → Nat) × RoombaOI
  | 0, bytesRead, buffer, s => (bytesRead, buffer, s)
  | fuel + 1, bytesRead, buffer, s =>
    if bytesRead < numBytes then
      if serialAvailable s then
        let r := serialRead s
        readBytesLoop numBytes fuel (bytesRead + 1) (store buffer bytesRead (toUInt8 r.1)) r.2
      else (bytesRead, buffer, s)
    else (bytesRead, buffer, s)

/-- Method `readBytes(buffer, numBytes, timeout)`; the result carries the buffer back. -/
def readBytes (buffer : Option (Nat → Nat)) (numBytes timeout : Nat) (s : RoombaOI) :
    Bool × Option (Nat → Nat) × RoombaOI :=
  match buffer with
  | none => (false, none, s)
  | some m =>
    let r := readBytesLoop numBytes numBytes 0 m s
    (r.1 == numBytes, some r.2.1, r.2.2)

/-! ### Public operations -/

/-- Method `start`. -/
def start (s : RoombaOI) : RoombaOI :=
  let s := sendCommand OI_START s
  debugPrint "START command sent" s

/-- Method `safeMode`. -/
def safeMode (s : RoombaOI) : RoombaOI :=
  let s := sendCommand OI_SAFE s
  debugPrint "SAFE mode command sent" s

/-- Method `fullMode`. -/
def fullMode (s : RoombaOI) : RoombaOI :=
  let s := sendCommand OI_FULL s
  debugPrint "FULL mode command sent" s

/-- Method `powerOff`. -/
def powerOff (s : RoombaOI) : RoombaOI :=
  let s := sendCommand OI_POWER s
  debugPrint "POWER OFF command sent" s

/-- Method `begin(baudRate)`. -/
def begin (baudRate : Nat) (s : RoombaOI) : Bool × RoombaOI :=
  if s.connected then (true, s)
  else
    let s := emit (HwEvent.pinMode s.brcPin true) s
    let s := emit (HwEvent.digitalWrite s.brcPin true) s
    let s := debugPrint "Initializing Roomba OI..." s
    let s := delay 2000 s
    let s := pulseDD s
    let s := delay 100 s
    let s := emit (HwEvent.serialBegin baudRate) s
    let s := delay 100 s
    let s := start s
    let s := delay 100 s
    let s := safeMode s
    let s := delay 100 s
    let s := { s with connected := true }
    let s := debugPrint "Roomba OI initialized" s
    (true, s)

/-- Method `end`. -/
def end_ (s : RoombaOI) : RoombaOI :=
  if s.connected then
    let s := powerOff s
    let s := emit HwEvent.serialEnd s
    { s with connected := false }
  else s

/-- Method `drive(velocity, radius)`. -/
def drive (velocity radius : Int) (s : RoombaOI) : RoombaOI :=
  let velocity := if velocity > MAX_VELOCITY then MAX_VELOCITY else velocity
  let velocity := if velocity < MIN_VELOCITY then MIN_VELOCITY else velocity
  let params := [highByte velocity, lowByte velocity, highByte radius, lowByte radius]
  let s := sendCommandN OI_DRIVE (some params) 4 s
  debugPrintValue "DRIVE command" velocity s

/-- Method `driveDirect(rightVel, leftVel)`. -/
def driveDirect (rightVel leftVel : Int) (s : RoombaOI) : RoombaOI :=
  let rightVel := if rightVel > MAX_VELOCITY then MAX_VELOCITY else rightVel
  let rightVel := if rightVel < MIN_VELOCITY then MIN_VELOCITY else rightVel
  let leftVel := if leftVel > MAX_VELOCITY then MAX_VELOCITY else leftVel
  let leftVel := if leftVel < MIN_VELOCITY then MIN_VELOCITY else leftVel
  let params := [highByte rightVel, lowByte rightVel, highByte leftVel, lowByte leftVel]
  let s := sendCommandN OI_DRIVE_DIRECT (some params) 4 s
  debugPrint "DRIVE_DIRECT command" s

/-- Inline method `stop`. -/
def stop (s : RoombaOI) : RoombaOI := drive 0 0 s

/-- Method `clean`. -/
def clean (s : RoombaOI) : RoombaOI :=
  let s := sendCommand OI_CLEAN s
  debugPrint "CLEAN command sent" s

/-- Method `spot`. -/
def spot (s : RoombaOI) : RoombaOI :=
  let s := sendCommand OI_SPOT s
  debugPrint "SPOT command sent" s

/-- Method `seekDock`. -/
def seekDock (s : RoombaOI) : RoombaOI :=
  let s := sendCommand OI_SEEK_DOCK s
  debugPrint "SEEK_DOCK command sent" s

/-- Method `setMotors(mainBrush, sideBrush, vacuum)`. -/
def setMotors (mainBrush sideBrush vacuum : Bool) (s : RoombaOI) : RoombaOI :=
  let motorBits : Nat := 0
  let motorBits := if sideBrush then motorBits ||| 0x01 else motorBits
  let motorBits := if vacuum then motorBits ||| 0x02 else motorBits
  let motorBits := if mainBrush then motorBits ||| 0x04 else motorBits
  let s := sendCommand1 OI_MOTORS motorBits s
  debugPrintValue "MOTORS command" motorBits s

/-- Method `setLEDs(ledBits, powerColor, powerIntensity)`. -/
def setLEDs (ledBits powerColor powerIntensity : Nat) (s : RoombaOI) : RoombaOI :=
  let params := [ledBits, powerColor, powerIntensity]
  let s := sendCommandN OI_LEDS (some params) 3 s
  debugPrint "LEDS command" s

/-- Method `getSensor(sensorId, data, dataSize)`; the result carries the buffer back. -/
def getSensor (sensorId : Nat) (data : Option (Nat → Nat)) (dataSize : Nat) (s : RoombaOI) :
    Bool × Option (Nat → Nat) × RoombaOI :=
  if !s.connected || data.isNone then (false, data, s)
  else
    let s := sendCommand1 OI_SENSORS sensorId s
    let s := delay 15 s
    readBytes data dataSize 100 s

/-- A local array `uint8_t data[n]`; its initial content is never read by the code. -/
def localArray : Nat → Nat := fun _ => 0

/-- Read `p[i]` through a buffer pointer. -/
def deref (p : Option (Nat → Nat)) (i : Nat) : Nat :=
  match p with
  | some m => m i
  | none => 0

/-- Method `getBatteryVoltage`. -/
def getBatteryVoltage (s : RoombaOI) : Nat × RoombaOI :=
  let r := getSensor SENSOR_VOLTAGE (some localArray) 2 s
  if r.1 then (toUInt16 (((deref r.2.1 0 <<< 8) ||| deref r.2.1 1 : Nat) : Int), r.2.2)
  else (0, r.2.2)

/-- Method `getBatteryCurrent`. -/
def getBatteryCurrent (s : RoombaOI) : Int × RoombaOI :=
  let r := getSensor SENSOR_CURRENT (some localArray) 2 s
  if r.1 then (toInt16 (((deref r.2.1 0 <<< 8) ||| deref r.2.1 1 : Nat) : Int), r.2.2)
  else (0, r.2.2)

/-- Method `isWallDetected`. -/
def isWallDetected (s : RoombaOI) : Bool × RoombaOI :=
  let r := getSensor SENSOR_WALL (some localArray) 1 s
  if r.1 then (deref r.2.1 0 != 0, r.2.2)
  else (false, r.2.2)

/-- Method `isBumperPressed`. -/
def isBumperPressed (s : RoombaOI) : Bool × RoombaOI :=
  let r := getSensor SENSOR_BUMPS_DROPS (some localArray) 1 s
  if r.1 then ((deref r.2.1 0 &&& 0x03) != 0, r.2.2)
  else (false, r.2.2)

/-- Method `startSensorStream(sensorList, numSensors)`. -/
def startSensorStream (sensorList : Option (List Nat)) (numSensors : Nat) (s : RoombaOI) :
    Bool × RoombaOI :=
  match sensorList with
  | none => (false, s)
  | some a =>
    if !s.connected || numSensors == 0 then (false, s)
    else
      let s := sendCommand1 OI_STREAM numSensors s
      let s := writeArray a numSensors s
      let s := debugPrintValue "Sensor stream started" numSensors s
      (true, s)

/-- Method `stopSensorStream`. -/
def stopSensorStream (s : RoombaOI) : Bool × RoombaOI :=
  if !s.connected then (false, s)
  else
    let s := sendCommand1 OI_STREAM 0 s
    let s := debugPrint "Sensor stream stopped" s
    (true, s)

/-- The header loop `while (millis() < timeout)` of `readStreamData`, at most `fuel` more
iterations that consume a byte.  An iteration that finds the window open and nothing pending
is the last one: the loop then spins until the end of its window and the method returns
false. -/
def readStreamLoop (bufferSize timeout : Nat) :
    Nat → (Nat → Nat) → RoombaOI → Bool × Option (Nat → Nat) × RoombaOI
  | 0, buffer, s => (false, some buffer, s)
  | fuel + 1, buffer, s =>
    if millis s < timeout then
      if serialAvailable s then
        let r := serialRead s
        if r.1 == 19 then
          let sz := readByte 50 r.2
          if sz.1 > 0 && sz.1 ≤ bufferSize then readBytes (some buffer) sz.1 100 sz.2
          else readStreamLoop bufferSize timeout fuel buffer sz.2
        else readStreamLoop bufferSize timeout fuel buffer r.2
      else (false, some buffer, s)
    else (false, some buffer, s)

/-- Method `readStreamData(buffer, bufferSize)`; the result carries the buffer back.  The end
of the header window is `millis() + 100` in 32-bit unsigned arithmetic.  Every iteration that
goes on consumes a byte, so `rx.length + 1` iterations are never used up. -/
def readStreamData (buffer : Option (Nat → Nat)) (bufferSize : Nat) (s : RoombaOI) :
    Bool × Option (Nat → Nat) × RoombaOI :=
  match buffer with
  | none => (false, none, s)
  | some m =>
    if !s.connected then (false, some m, s)
    else
      let timeout := (millis s + 100) % 4294967296
      readStreamLoop bufferSize timeout (s.rx.length + 1) m s

end RoombaOI

/-- The `ArduRoomba` facade: its `RoombaOI` member and its own debug flag. -/
structure ArduRoomba where
  oi : RoombaOI
  debug : Bool
  deriving DecidableEq, Repr

namespace ArduRoomba

/-- Constructor `ArduRoomba::ArduRoomba`. -/
def new (rxPin txPin brcPin : Nat) (rx : List Nat) : ArduRoomba :=
  { oi := RoombaOI.new rxPin txPin brcPin rx, debug := false }

/-- Method `debugPrint(msg)` of the facade. -/
def debugPrint (msg : String) (a : ArduRoomba) : ArduRoomba :=
  if a.debug then
    { a with oi := { a.oi with console := a.oi.console ++ [⟨"ArduRoomba", msg, none⟩] } }
  else a

/-- Method `debugPrint(msg, value)` of the facade. -/
def debugPrintValue (msg : String) (value : Int) (a : ArduRoomba) : ArduRoomba :=
  if a.debug then
    { a with oi := { a.oi with console := a.oi.console ++ [⟨"ArduRoomba", msg, some value⟩] } }
  else a

/-- Method `begin(baudRate)`. -/
def begin (baudRate : Nat) (a : ArduRoomba) : Bool × ArduRoomba :=
  let a := debugPrint "Starting ArduRoomba..." a
  let r := RoombaOI.begin baudRate a.oi
  let a := { a with oi := r.2 }
  if r.1 then
    let a := { a with oi := RoombaOI.setDebug a.debug a.oi }
    let a := debugPrint "ArduRoomba ready" a
    (true, a)
  else
    let a := debugPrint "ArduRoomba failed to start" a
    (false, a)

/-- Method `end`. -/
def end_ (a : ArduRoomba) : ArduRoomba :=
  let a := { a with oi := RoombaOI.end_ a.oi }
  debugPrint "ArduRoomba stopped" a

/-- Method `isConnected`. -/
def isConnected (a : ArduRoomba) : Bool := RoombaOI.isConnected a.oi

/-- Method `moveForward(speed)`. -/
def moveForward (speed : Int) (a : ArduRoomba) : ArduRoomba :=
  let a := debugPrintValue "Moving forward" speed a
  { a with oi := RoombaOI.drive speed (toInt16 DRIVE_STRAIGHT) a.oi }

/-- Method `moveBackward(speed)`. -/
def moveBackward (speed : Int) (a : ArduRoomba) : ArduRoomba :=
  let a := debugPrintValue "Moving backward" speed a
  { a with oi := RoombaOI.drive (toInt16 (-speed)) (toInt16 DRIVE_STRAIGHT) a.oi }

/-- Method `turnLeft(speed)`. -/
def turnLeft (speed : Int) (a : ArduRoomba) : ArduRoomba :=
  let a := debugPrintValue "Turning left" speed a
  { a with oi := RoombaOI.drive speed (toInt16 DRIVE_TURN_CCW) a.oi }

/-- Method `turnRight(speed)`. -/
def turnRight (speed : Int) (a : ArduRoomba) : ArduRoomba :=
  let a := debugPrintValue "Turning right" speed a
  { a with oi := RoombaOI.drive speed (toInt16 DRIVE_TURN_CW) a.oi }

/-- Method `stop`. -/
def stop (a : ArduRoomba) : ArduRoomba :=
  let a := debugPrint "Stopping" a
  { a with oi := RoombaOI.stop a.oi }

/-- Method `drive(velocity, radius)`. -/
def drive (velocity radius : Int) (a : ArduRoomba) : ArduRoomba :=
  { a with oi := RoombaOI.drive velocity radius a.oi }

/-- Method `driveDirect(rightVel, leftVel)`. -/
def driveDirect (rightVel leftVel : Int) (a : ArduRoomba) : ArduRoomba :=
  { a with oi := RoombaOI.driveDirect rightVel leftVel a.oi }

/-- Method `startCleaning`. -/
def startCleaning (a : ArduRoomba) : ArduRoomba :=
  let a := debugPrint "Starting cleaning mode" a
  { a with oi := RoombaOI.clean a.oi }

/-- Method `spotClean`. -/
def spotClean (a : ArduRoomba) : ArduRoomba :=
  let a := debugPrint "Starting spot cleaning" a
  { a with oi := RoombaOI.spot a.oi }

/-- Method `dock`. -/
def dock (a : ArduRoomba) : ArduRoomba :=
  let a := debugPrint "Seeking dock" a
  { a with oi := RoombaOI.seekDock a.oi }

/-- Method `getBatteryVoltage`. -/
def getBatteryVoltage (a : ArduRoomba) : Nat × ArduRoomba :=
  let r := RoombaOI.getBatteryVoltage a.oi
  (r.1, { a with oi := r.2 })

/-- Method `getBatteryCurrent`. -/
def getBatteryCurrent (a : ArduRoomba) : Int × ArduRoomba :=
  let r := RoombaOI.getBatteryCurrent a.oi
  (r.1, { a with oi := r.2 })

/-- Method `isWallDetected`. -/
def isWallDetected (a : ArduRoomba) : Bool × ArduRoomba :=
  let r := RoombaOI.isWallDetected a.oi
  (r.1, { a with oi := r.2 })

/-- Method `isBumperPressed`. -/
def isBumperPressed (a : ArduRoomba) : Bool × ArduRoomba :=
  let r := RoombaOI.isBumperPressed a.oi
  (r.1, { a with oi := r.2 })

/-- Method `setBrushes(main, side, vacuum)`. -/
def setBrushes (main side vacuum : Bool) (a : ArduRoomba) : ArduRoomba :=
  let a := debugPrint "Setting brushes" a
  { a with oi := RoombaOI.setMotors main side vacuum a.oi }

/-- Method `setLED(debris, spot, dock, checkRobot)`. -/
def setLED (debris spot dock checkRobot : Bool) (a : ArduRoomba) : ArduRoomba :=
  let ledBits : Nat := 0
  let ledBits := if debris then ledBits ||| 0x01 else ledBits
  let ledBits := if spot then ledBits ||| 0x02 else ledBits
  let ledBits := if dock then ledBits ||| 0x04 else ledBits
  let ledBits := if checkRobot then ledBits ||| 0x08 else ledBits
  let a := { a with oi := RoombaOI.setLEDs ledBits 0 255 a.oi }
  debugPrintValue "Setting LEDs" ledBits a

/-- Method `setPowerLED(color, intensity)`. -/
def setPowerLED (color intensity : Nat) (a : ArduRoomba) : ArduRoomba :=
  let a := { a with oi := RoombaOI.setLEDs 0 color intensity a.oi }
  debugPrintValue "Setting power LED" color a

/-- Method `setDebug(enable)`. -/
def setDebug (enable : Bool) (a : ArduRoomba) : ArduRoomba :=
  let a := { a with debug := enable }
  let a := { a with oi := RoombaOI.setDebug enable a.oi }
  debugPrintValue "Debug mode" (if enable then 1 else 0) a

end ArduRoomba

/-- No byte was written to the channel and none was read from it between `s` and `s'`. -/
def channelUntouched (s s' : RoombaOI) : Prop := s'.tx = s.tx ∧ s'.rx = s.rx

/-- The memory `m` after the bytes `bs` were stored at offsets `k`, `k + 1`, ... -/
def fill (m : Nat → Nat) (k : Nat) (bs : List Nat) : Nat → Nat :=
  fun i => if k ≤ i ∧ i < k + bs.length then toUInt8 ((bs.getD (i - k) 0 : Nat) : Int) else m i

/-- The motor byte of the claims: side brush 0x01, vacuum 0x02, main brush 0x04. -/
def motorByte (mainBrush sideBrush vacuum : Bool) : Nat :=
  (if sideBrush then 0x01 else 0) ||| (if vacuum then 0x02 else 0)
    ||| (if mainBrush then 0x04 else 0)

/-- The indicator byte of the claims: debris 0x01, spot 0x02, dock 0x04, check robot 0x08. -/
def ledByte (debris spot dock checkRobot : Bool) : Nat :=
  (if debris then 0x01 else 0) ||| (if spot then 0x02 else 0) ||| (if dock then 0x04 else 0)
    ||| (if checkRobot then 0x08 else 0)

/-- What a run of the stream parser on the state `s` with the buffer `m` may leave behind in
`r`: the buffer is `m` with some bytes `p`, at most `bufferSize` of them, stored from offset 0;
nothing but `rx` has changed in the state; `p` was read off the channel after some bytes
`front`; and when the result is true `p` is not empty and `front` ends with the header 19 and
a size byte equal to the length of `p`. -/
def StreamOutcome (bufferSize : Nat) (m : Nat → Nat) (s : RoombaOI)
    (r : Bool × Option (Nat → Nat) × RoombaOI) : Prop :=
  ∃ p front : List Nat,
    r.2.1 = some (fill m 0 p)
      ∧ p.length ≤ bufferSize
      ∧ r.2.2 = { s with rx := r.2.2.rx }
      ∧ s.rx = front ++ p ++ r.2.2.rx
      ∧ (r.1 = true →
          1 ≤ p.length ∧ ∃ (front' : List Nat) (sz : Nat),
            front = front' ++ [19, sz] ∧ toUInt8 (sz : Int) = p.length)

/-! ## Arithmetic of the byte packing -/

theorem ldiff_255 (m : Nat) : Nat.ldiff 255 m = 255 - m % 256 := by
  apply Nat.eq_of_testBit_eq
  intro i
  rw [Nat.testBit_ldiff]
  have h1 : (255 : Nat) = 2 ^ 8 - 1 := by norm_num
  have h2 : 255 - m % 256 = 2 ^ 8 - (m % 2 ^ 8 + 1) := by omega
  rw [h2, Nat.testBit_two_pow_sub_succ (Nat.mod_lt _ (by norm_num)), h1,
    Nat.testBit_two_pow_sub_one, Nat.testBit_mod_two_pow]
  by_cases h : i < 8 <;> simp [h]

theorem land_255 (x : Int) : Int.land x 255 = x % 256 := by
  cases x with
  | ofNat m =>
    show ((m &&& 255 : Nat) : Int) = (m : Int) % 256
    have h : m &&& 255 = m % 256 := Nat.and_pow_two_sub_one_eq_mod m 8
    rw [h]; omega
  | negSucc m =>
    show ((Nat.ldiff 255 m : Nat) : Int) = Int.negSucc m % 256
    rw [ldiff_255, Int.negSucc_eq]
    omega

theorem shiftRight_8 (x : Int) : Int.shiftRight x 8 = x / 256 := by
  have h := Int.shiftRight_eq_div_pow x 8
  simpa using h

theorem highByte_eq_hi (x : Int) : highByte x = hi x := by
  unfold highByte hi toUInt8 twosComplement16
  rw [shiftRight_8, land_255]
  omega

theorem lowByte_eq_lo (x : Int) : lowByte x = lo x := by
  unfold lowByte lo toUInt8 twosComplement16
  rw [land_255]
  omega

theorem clamp_eq_saturate (v : Int) :
    (if (if v > MAX_VELOCITY then MAX_VELOCITY else v) < MIN_VELOCITY then MIN_VELOCITY
      else (if v > MAX_VELOCITY then MAX_VELOCITY else v)) = saturate v := by
  unfold MAX_VELOCITY MIN_VELOCITY saturate
  split_ifs <;> omega

/-! ## Effect of the primitives on the record -/

namespace RoombaOI

@[simp] theorem serialWrite_tx (b : Nat) (s : RoombaOI) : (serialWrite b s).tx = s.tx ++ [b] := rfl

@[simp] theorem serialWrite_rx (b : Nat) (s : RoombaOI) : (serialWrite b s).rx = s.rx := rfl

@[simp] theorem serialWrite_connected (b : Nat) (s : RoombaOI) :
    (serialWrite b s).connected = s.connected := rfl

@[simp] theorem emit_tx (e : HwEvent) (s : RoombaOI) : (emit e s).tx = s.tx := rfl

@[simp] theorem emit_rx (e : HwEvent) (s : RoombaOI) : (emit e s).rx = s.rx := rfl

@[simp] theorem emit_connected (e : HwEvent) (s : RoombaOI) :
    (emit e s).connected = s.connected := rfl

@[simp] theorem delay_tx (ms : Nat) (s : RoombaOI) : (delay ms s).tx = s.tx := rfl

@[simp] theorem delay_rx (ms : Nat) (s : RoombaOI) : (delay ms s).rx = s.rx := rfl

@[simp] theorem delay_connected (ms : Nat) (s : RoombaOI) :
    (delay ms s).connected = s.connected := rfl

@[simp] theorem debugPrint_tx (msg : String) (s : RoombaOI) : (debugPrint msg s).tx = s.tx := by
  unfold debugPrint; split <;> rfl

@[simp] theorem debugPrint_rx (msg : String) (s : RoombaOI) : (debugPrint msg s).rx = s.rx := by
  unfold debugPrint; split <;> rfl

@[simp] theorem debugPrint_connected (msg : String) (s : RoombaOI) :
    (debugPrint msg s).connected = s.connected := by
  unfold debugPrint; split <;> rfl

@[simp] theorem debugPrintValue_tx (msg : String) (v : Int) (s : RoombaOI) :
    (debugPrintValue msg v s).tx = s.tx := by
  unfold debugPrintValue; split <;> rfl

@[simp] theorem debugPrintValue_rx (msg : String) (v : Int) (s : RoombaOI) :
    (debugPrintValue msg v s).rx = s.rx := by
  unfold debugPrintValue; split <;> rfl

@[simp] theorem debugPrintValue_connected (msg : String) (v : Int) (s : RoombaOI) :
    (debugPrintValue msg v s).connected = s.connected := by
  unfold debugPrintValue; split <;> rfl

theorem writeArray_tx (a : List Nat) (n : Nat) (s : RoombaOI) :
    (writeArray a n s).tx = s.tx ++ (List.range n).map (fun i => a.getD i 0) := by
  unfold writeArray
  induction n with
  | zero => simp
  | succ k ih =>
    rw [List.range_succ, List.foldl_append]
    simp only [List.foldl_cons, List.foldl_nil, serialWrite_tx, List.map_append, List.map_cons,
      List.map_nil]
    rw [ih, List.append_assoc]

@[simp] theorem writeArray_rx (a : List Nat) (n : Nat) (s : RoombaOI) :
    (writeArray a n s).rx = s.rx := by
  unfold writeArray
  induction n with
  | zero => simp
  | succ k ih =>
    rw [List.range_succ, List.foldl_append]
    simp only [List.foldl_cons, List.foldl_nil, serialWrite_rx]
    exact ih

@[simp] theorem writeArray_connected (a : List Nat) (n : Nat) (s : RoombaOI) :
    (writeArray a n s).connected = s.connected := by
  unfold writeArray
  induction n with
  | zero => simp
  | succ k ih =>
    rw [List.range_succ, List.foldl_append]
    simp only [List.foldl_cons, List.foldl_nil, serialWrite_connected]
    exact ih

theorem sendCommand_tx (cmd : Nat) (s : RoombaOI) (h : s.connected = true) :
    (sendCommand cmd s).tx = s.tx ++ [cmd] := by
  simp [sendCommand, h]

theorem sendCommand1_tx (cmd param : Nat) (s : RoombaOI) (h : s.connected = true) :
    (sendCommand1 cmd param s).tx = s.tx ++ [cmd, param] := by
  simp [sendCommand1, h]

theorem sendCommandN_tx (cmd : Nat) (a : List Nat) (n : Nat) (s : RoombaOI)
    (h : s.connected = true) :
    (sendCommandN cmd (some a) n s).tx
      = s.tx ++ cmd :: (List.range n).map (fun i => a.getD i 0) := by
  simp [sendCommandN, h, writeArray_tx]

theorem sendCommandN_four_tx (cmd a b c d : Nat) (s : RoombaOI) (h : s.connected = true) :
    (sendCommandN cmd (some [a, b, c, d]) 4 s).tx = s.tx ++ [cmd, a, b, c, d] := by
  rw [sendCommandN_tx _ _ _ _ h]
  rfl

end RoombaOI

/-! ## Drive commands -/

/-- C1: on a connected instance `drive v r`, for 16-bit signed `v` and `r`, appends exactly
five bytes to what has been written: 137, the high and low byte of the velocity saturated to
`[-500, 500]`, then the high and low byte of the unmodified radius; nothing is read. -/
theorem drive_writes_opcode_and_saturated_big_endian (s : RoombaOI) (v r : Int)
    (hc : s.connected = true) (hv : -32768 ≤ v ∧ v ≤ 32767) (hr : -32768 ≤ r ∧ r ≤ 32767) :
    (RoombaOI.drive v r s).tx
        = s.tx ++ [137, hi (saturate v), lo (saturate v), hi r, lo r]
      ∧ (RoombaOI.drive v r s).rx = s.rx
      ∧ (-500 ≤ saturate v ∧ saturate v ≤ 500)
      ∧ (-500 ≤ v → v ≤ 500 → saturate v = v) := by
  refine ⟨?_, ?_, ?_, ?_⟩
  · unfold RoombaOI.drive
    simp only [RoombaOI.debugPrintValue_tx, clamp_eq_saturate]
    rw [RoombaOI.sendCommandN_four_tx _ _ _ _ _ _ hc, highByte_eq_hi, lowByte_eq_lo,
      highByte_eq_hi, lowByte_eq_lo]
    rfl
  · unfold RoombaOI.drive
    simp [RoombaOI.sendCommandN, hc]
  · unfold saturate; omega
  · intro h1 h2; unfold saturate; omega

/-- Instance of C1 at velocity 700 (saturated to 500 = 0x01F4) and radius -1 (0xFFFF) on a
freshly opened instance: the bytes written are 137, 1, 244, 255, 255. -/
theorem drive_writes_opcode_and_saturated_big_endian_witness :
    (RoombaOI.begin 19200 (RoombaOI.new 10 11 5 [])).2.connected = true
      ∧ ((-32768 : Int) ≤ 700 ∧ (700 : Int) ≤ 32767)
      ∧ ((-32768 : Int) ≤ -1 ∧ (-1 : Int) ≤ 32767)
      ∧ (RoombaOI.drive 700 (-1) (RoombaOI.begin 19200 (RoombaOI.new 10 11 5 [])).2).tx
        = [137, 1, 244, 255, 255] :=
  ⟨by decide, by decide, by decide,
    (drive_writes_opcode_and_saturated_big_endian
      (RoombaOI.begin 19200 (RoombaOI.new 10 11 5 [])).2 700 (-1) (by decide) (by decide)
      (by decide)).1.trans (by decide)⟩

/-- C2: on a connected instance `driveDirect rightVel leftVel`, for 16-bit signed wheel
velocities, appends exactly 145, the high and low byte of the saturated right velocity, then
the high and low byte of the saturated left velocity; nothing is read. -/
theorem driveDirect_writes_opcode_right_then_left (s : RoombaOI) (rightVel leftVel : Int)
    (hc : s.connected = true) (hR : -32768 ≤ rightVel ∧ rightVel ≤ 32767)
    (hL : -32768 ≤ leftVel ∧ leftVel ≤ 32767) :
    (RoombaOI.driveDirect rightVel leftVel s).tx
        = s.tx ++ [145, hi (saturate rightVel), lo (saturate rightVel),
            hi (saturate leftVel), lo (saturate leftVel)]
      ∧ (RoombaOI.driveDirect rightVel leftVel s).rx = s.rx
      ∧ (-500 ≤ saturate rightVel ∧ saturate rightVel ≤ 500)
      ∧ (-500 ≤ saturate leftVel ∧ saturate leftVel ≤ 500) := by
  refine ⟨?_, ?_, ?_, ?_⟩
  · unfold RoombaOI.driveDirect
    simp only [RoombaOI.debugPrint_tx, clamp_eq_saturate]
    rw [RoombaOI.sendCommandN_four_tx _ _ _ _ _ _ hc, highByte_eq_hi, lowByte_eq_lo,
      highByte_eq_hi, lowByte_eq_lo]
    rfl
  · unfold RoombaOI.driveDirect
    simp [RoombaOI.sendCommandN, hc]
  · unfold saturate; omega
  · unfold saturate; omega

/-- Instance of C2 at right velocity -600 (saturated to -500 = 0xFE0C) and left velocity
200 (0x00C8): the bytes written are 145, 254, 12, 0, 200. -/
theorem driveDirect_writes_opcode_right_then_left_witness :
    (RoombaOI.begin 19200 (RoombaOI.new 10 11 5 [])).2.connected = true
      ∧ ((-32768 : Int) ≤ -600 ∧ (-600 : Int) ≤ 32767)
      ∧ ((-32768 : Int) ≤ 200 ∧ (200 : Int) ≤ 32767)
      ∧ (RoombaOI.driveDirect (-600) 200
          (RoombaOI.begin 19200 (RoombaOI.new 10 11 5 [])).2).tx
        = [145, 254, 12, 0, 200] :=
  ⟨by decide, by decide, by decide,
    (driveDirect_writes_opcode_right_then_left
      (RoombaOI.begin 19200 (RoombaOI.new 10 11 5 [])).2 (-600) 200 (by decide) (by decide)
      (by decide)).1.trans (by decide)⟩

/-! ## Connection lifecycle -/

/-- C3: `begin 19200` on a freshly constructed (Disconnected) instance leaves the instance
connected but has written no byte at all to the channel: `start` and `safeMode` run while
the connected flag is still false, so the guard of `sendCommand` drops 128 and 131. -/
theorem begin_on_disconnected_writes_nothing :
    (RoombaOI.new 10 11 5 []).connected = false
      ∧ (RoombaOI.begin 19200 (RoombaOI.new 10 11 5 [])).1 = true
      ∧ (RoombaOI.begin 19200 (RoombaOI.new 10 11 5 [])).2.tx = []
      ∧ (RoombaOI.begin 19200 (RoombaOI.new 10 11 5 [])).2.tx ≠ [128, 131]
      ∧ (RoombaOI.begin 19200 (RoombaOI.new 10 11 5 [])).2.connected = true := by
  decide

/-! ## The guard on the connected flag -/

namespace RoombaOI

theorem sendCommand_off (cmd : Nat) (s : RoombaOI) (h : s.connected = false) :
    sendCommand cmd s = s := by
  simp [sendCommand, h]

theorem sendCommand1_off (cmd param : Nat) (s : RoombaOI) (h : s.connected = false) :
    sendCommand1 cmd param s = s := by
  simp [sendCommand1, h]

theorem sendCommandN_off (cmd : Nat) (params : Option (List Nat)) (n : Nat) (s : RoombaOI)
    (h : s.connected = false) : sendCommandN cmd params n s = s := by
  cases params <;> simp [sendCommandN, h]

theorem drive_off (v r : Int) (s : RoombaOI) (h : s.connected = false) :
    channelUntouched s (drive v r s) := by
  unfold drive
  simp [channelUntouched, sendCommandN_off _ _ _ _ h]

theorem getSensor_off (id : Nat) (data : Option (Nat → Nat)) (n : Nat) (s : RoombaOI)
    (h : s.connected = false) : getSensor id data n s = (false, data, s) := by
  simp [getSensor, h]

end RoombaOI

namespace ArduRoomba

@[simp] theorem facade_debugPrint_tx (msg : String) (a : ArduRoomba) :
    (debugPrint msg a).oi.tx = a.oi.tx := by
  unfold debugPrint; split <;> rfl

@[simp] theorem facade_debugPrint_rx (msg : String) (a : ArduRoomba) :
    (debugPrint msg a).oi.rx = a.oi.rx := by
  unfold debugPrint; split <;> rfl

@[simp] theorem facade_debugPrint_connected (msg : String) (a : ArduRoomba) :
    (debugPrint msg a).oi.connected = a.oi.connected := by
  unfold debugPrint; split <;> rfl

@[simp] theorem facade_debugPrintValue_tx (msg : String) (v : Int) (a : ArduRoomba) :
    (debugPrintValue msg v a).oi.tx = a.oi.tx := by
  unfold debugPrintValue; split <;> rfl

@[simp] theorem facade_debugPrintValue_rx (msg : String) (v : Int) (a : ArduRoomba) :
    (debugPrintValue msg v a).oi.rx = a.oi.rx := by
  unfold debugPrintValue; split <;> rfl

@[simp] theorem facade_debugPrintValue_connected (msg : String) (v : Int) (a : ArduRoomba) :
    (debugPrintValue msg v a).oi.connected = a.oi.connected := by
  unfold debugPrintValue; split <;> rfl

end ArduRoomba

theorem channelUntouched_trans {s t u : RoombaOI} (h1 : channelUntouched s t)
    (h2 : channelUntouched t u) : channelUntouched s u :=
  ⟨h2.1.trans h1.1, h2.2.trans h1.2⟩

/-- The protocol layer while Disconnected: every operation of `RoombaOI` other than `begin`,
`end` and `isConnected` leaves the channel untouched. -/
theorem oi_disconnected_untouched (s : RoombaOI) (h : s.connected = false) :
    channelUntouched s (RoombaOI.start s)
      ∧ channelUntouched s (RoombaOI.safeMode s)
      ∧ channelUntouched s (RoombaOI.fullMode s)
      ∧ channelUntouched s (RoombaOI.powerOff s)
      ∧ (∀ v r, channelUntouched s (RoombaOI.drive v r s))
      ∧ (∀ r l, channelUntouched s (RoombaOI.driveDirect r l s))
      ∧ channelUntouched s (RoombaOI.stop s)
      ∧ channelUntouched s (RoombaOI.clean s)
      ∧ channelUntouched s (RoombaOI.spot s)
      ∧ channelUntouched s (RoombaOI.seekDock s)
      ∧ (∀ m sb v, channelUntouched s (RoombaOI.setMotors m sb v s))
      ∧ (∀ l c i, channelUntouched s (RoombaOI.setLEDs l c i s))
      ∧ (∀ id data n, channelUntouched s (RoombaOI.getSensor id data n s).2.2)
      ∧ channelUntouched s (RoombaOI.getBatteryVoltage s).2
      ∧ channelUntouched s (RoombaOI.getBatteryCurrent s).2
      ∧ channelUntouched s (RoombaOI.isWallDetected s).2
      ∧ channelUntouched s (RoombaOI.isBumperPressed s).2
      ∧ (∀ ids n, channelUntouched s (RoombaOI.startSensorStream ids n s).2)
      ∧ channelUntouched s (RoombaOI.stopSensorStream s).2
      ∧ (∀ buffer n, channelUntouched s (RoombaOI.readStreamData buffer n s).2.2) := by
  refine ⟨?_, ?_, ?_, ?_, ?_, ?_, ?_, ?_, ?_, ?_, ?_, ?_, ?_, ?_, ?_, ?_, ?_, ?_, ?_, ?_⟩
  · simp [channelUntouched, RoombaOI.start, RoombaOI.sendCommand_off _ _ h]
  · simp [channelUntouched, RoombaOI.safeMode, RoombaOI.sendCommand_off _ _ h]
  · simp [channelUntouched, RoombaOI.fullMode, RoombaOI.sendCommand_off _ _ h]
  · simp [channelUntouched, RoombaOI.powerOff, RoombaOI.sendCommand_off _ _ h]
  · intro v r; exact RoombaOI.drive_off v r s h
  · intro r l
    unfold RoombaOI.driveDirect
    simp [channelUntouched, RoombaOI.sendCommandN_off _ _ _ _ h]
  · exact RoombaOI.drive_off 0 0 s h
  · simp [channelUntouched, RoombaOI.clean, RoombaOI.sendCommand_off _ _ h]
  · simp [channelUntouched, RoombaOI.spot, RoombaOI.sendCommand_off _ _ h]
  · simp [channelUntouched, RoombaOI.seekDock, RoombaOI.sendCommand_off _ _ h]
  · intro m sb v
    unfold RoombaOI.setMotors
    simp [channelUntouched, RoombaOI.sendCommand1_off _ _ _ h]
  · intro l c i
    unfold RoombaOI.setLEDs
    simp [channelUntouched, RoombaOI.sendCommandN_off _ _ _ _ h]
  · intro id data n
    simp [channelUntouched, RoombaOI.getSensor_off _ _ _ _ h]
  · simp [channelUntouched, RoombaOI.getBatteryVoltage, RoombaOI.getSensor_off _ _ _ _ h]
  · simp [channelUntouched, RoombaOI.getBatteryCurrent, RoombaOI.getSensor_off _ _ _ _ h]
  · simp [channelUntouched, RoombaOI.isWallDetected, RoombaOI.getSensor_off _ _ _ _ h]
  · simp [channelUntouched, RoombaOI.isBumperPressed, RoombaOI.getSensor_off _ _ _ _ h]
  · intro ids n
    cases ids <;> simp [channelUntouched, RoombaOI.startSensorStream, h]
  · simp [channelUntouched, RoombaOI.stopSensorStream, h]
  · intro buffer n
    cases buffer <;> simp [channelUntouched, RoombaOI.readStreamData, h]

theorem facade_print_untouched (msg : String) (a : ArduRoomba) (f : RoombaOI → RoombaOI)
    (hf : ∀ s : RoombaOI, s.connected = false → channelUntouched s (f s))
    (h : a.oi.connected = false) :
    channelUntouched a.oi (f (ArduRoomba.debugPrint msg a).oi) := by
  have h1 := hf (ArduRoomba.debugPrint msg a).oi (by simpa using h)
  simpa [channelUntouched] using h1

theorem facade_printValue_untouched (msg : String) (v : Int) (a : ArduRoomba)
    (f : RoombaOI → RoombaOI)
    (hf : ∀ s : RoombaOI, s.connected = false → channelUntouched s (f s))
    (h : a.oi.connected = false) :
    channelUntouched a.oi (f (ArduRoomba.debugPrintValue msg v a).oi) := by
  have h1 := hf (ArduRoomba.debugPrintValue msg v a).oi (by simpa using h)
  simpa [channelUntouched] using h1

/-- C4: while the instance is Disconnected, every operation other than `begin`, `end` and
`isConnected` writes no byte to the channel and reads no byte from it.  This holds for each
operation of the protocol layer and for each embedded verb of the facade, for all
arguments. -/
theorem disconnected_operations_leave_channel_untouched (a : ArduRoomba)
    (h : a.oi.connected = false) :
    (channelUntouched a.oi (RoombaOI.start a.oi)
      ∧ channelUntouched a.oi (RoombaOI.safeMode a.oi)
      ∧ channelUntouched a.oi (RoombaOI.fullMode a.oi)
      ∧ channelUntouched a.oi (RoombaOI.powerOff a.oi)
      ∧ (∀ v r, channelUntouched a.oi (RoombaOI.drive v r a.oi))
      ∧ (∀ r l, channelUntouched a.oi (RoombaOI.driveDirect r l a.oi))
      ∧ channelUntouched a.oi (RoombaOI.stop a.oi)
      ∧ channelUntouched a.oi (RoombaOI.clean a.oi)
      ∧ channelUntouched a.oi (RoombaOI.spot a.oi)
      ∧ channelUntouched a.oi (RoombaOI.seekDock a.oi)
      ∧ (∀ m sb v, channelUntouched a.oi (RoombaOI.setMotors m sb v a.oi))
      ∧ (∀ l c i, channelUntouched a.oi (RoombaOI.setLEDs l c i a.oi))
      ∧ (∀ id data n, channelUntouched a.oi (RoombaOI.getSensor id data n a.oi).2.2)
      ∧ channelUntouched a.oi (RoombaOI.getBatteryVoltage a.oi).2
      ∧ channelUntouched a.oi (RoombaOI.getBatteryCurrent a.oi).2
      ∧ channelUntouched a.oi (RoombaOI.isWallDetected a.oi).2
      ∧ channelUntouched a.oi (RoombaOI.isBumperPressed a.oi).2
      ∧ (∀ ids n, channelUntouched a.oi (RoombaOI.startSensorStream ids n a.oi).2)
      ∧ channelUntouched a.oi (RoombaOI.stopSensorStream a.oi).2
      ∧ (∀ buffer n, channelUntouched a.oi (RoombaOI.readStreamData buffer n a.oi).2.2))
    ∧ (∀ speed, channelUntouched a.oi (ArduRoomba.moveForward speed a).oi)
    ∧ (∀ speed, channelUntouched a.oi (ArduRoomba.moveBackward speed a).oi)
    ∧ (∀ speed, channelUntouched a.oi (ArduRoomba.turnLeft speed a).oi)
    ∧ (∀ speed, channelUntouched a.oi (ArduRoomba.turnRight speed a).oi)
    ∧ channelUntouched a.oi (ArduRoomba.stop a).oi
    ∧ (∀ v r, channelUntouched a.oi (ArduRoomba.drive v r a).oi)
    ∧ (∀ r l, channelUntouched a.oi (ArduRoomba.driveDirect r l a).oi)
    ∧ channelUntouched a.oi (ArduRoomba.startCleaning a).oi
    ∧ channelUntouched a.oi (ArduRoomba.spotClean a).oi
    ∧ channelUntouched a.oi (ArduRoomba.dock a).oi
    ∧ channelUntouched a.oi (ArduRoomba.getBatteryVoltage a).2.oi
    ∧ channelUntouched a.oi (ArduRoomba.getBatteryCurrent a).2.oi
    ∧ channelUntouched a.oi (ArduRoomba.isWallDetected a).2.oi
    ∧ channelUntouched a.oi (ArduRoomba.isBumperPressed a).2.oi
    ∧ (∀ m sb v, channelUntouched a.oi (ArduRoomba.setBrushes m sb v a).oi)
    ∧ (∀ d sp dk c, channelUntouched a.oi (ArduRoomba.setLED d sp dk c a).oi)
    ∧ (∀ c i, channelUntouched a.oi (ArduRoomba.setPowerLED c i a).oi) := by
  have oi := fun s hs => oi_disconnected_untouched s hs
  have base := oi a.oi h
  refine ⟨base, ?_, ?_, ?_, ?_, ?_, ?_, ?_, ?_, ?_, ?_, ?_, ?_, ?_, ?_, ?_, ?_, ?_⟩
  · intro speed
    exact facade_printValue_untouched _ _ a _ (fun s hs => (oi s hs).2.2.2.2.1 _ _) h
  · intro speed
    exact facade_printValue_untouched _ _ a _ (fun s hs => (oi s hs).2.2.2.2.1 _ _) h
  · intro speed
    exact facade_printValue_untouched _ _ a _ (fun s hs => (oi s hs).2.2.2.2.1 _ _) h
  · intro speed
    exact facade_printValue_untouched _ _ a _ (fun s hs => (oi s hs).2.2.2.2.1 _ _) h
  · exact facade_print_untouched _ a _ (fun s hs => (oi s hs).2.2.2.2.2.2.1) h
  · intro v r; exact base.2.2.2.2.1 v r
  · intro r l; exact base.2.2.2.2.2.1 r l
  · exact facade_print_untouched _ a _ (fun s hs => (oi s hs).2.2.2.2.2.2.2.1) h
  · exact facade_print_untouched _ a _ (fun s hs => (oi s hs).2.2.2.2.2.2.2.2.1) h
  · exact facade_print_untouched _ a _ (fun s hs => (oi s hs).2.2.2.2.2.2.2.2.2.1) h
  · exact base.2.2.2.2.2.2.2.2.2.2.2.2.2.1
  · exact base.2.2.2.2.2.2.2.2.2.2.2.2.2.2.1
  · exact base.2.2.2.2.2.2.2.2.2.2.2.2.2.2.2.1
  · exact base.2.2.2.2.2.2.2.2.2.2.2.2.2.2.2.2.1
  · intro m sb v
    exact facade_print_untouched _ a _
      (fun s hs => (oi s hs).2.2.2.2.2.2.2.2.2.2.1 m sb v) h
  · intro d sp dk c
    have h1 := base.2.2.2.2.2.2.2.2.2.2.2.1
    unfold ArduRoomba.setLED
    simp only [channelUntouched, ArduRoomba.facade_debugPrintValue_tx, ArduRoomba.facade_debugPrintValue_rx]
    exact h1 _ _ _
  · intro c i
    have h1 := base.2.2.2.2.2.2.2.2.2.2.2.1
    unfold ArduRoomba.setPowerLED
    simp only [channelUntouched, ArduRoomba.facade_debugPrintValue_tx, ArduRoomba.facade_debugPrintValue_rx]
    exact h1 _ _ _

/-- Instance of C4: a facade constructed with three bytes pending and never opened; in
particular `moveForward 200` writes nothing and reads nothing. -/
theorem disconnected_operations_leave_channel_untouched_witness :
    (ArduRoomba.new 10 11 5 [1, 2, 3]).oi.connected = false
      ∧ channelUntouched (ArduRoomba.new 10 11 5 [1, 2, 3]).oi
          (ArduRoomba.moveForward 200 (ArduRoomba.new 10 11 5 [1, 2, 3])).oi
      ∧ (ArduRoomba.moveForward 200 (ArduRoomba.new 10 11 5 [1, 2, 3])).oi.tx = []
      ∧ (ArduRoomba.moveForward 200 (ArduRoomba.new 10 11 5 [1, 2, 3])).oi.rx = [1, 2, 3] :=
  ⟨by decide,
    (disconnected_operations_leave_channel_untouched (ArduRoomba.new 10 11 5 [1, 2, 3])
      (by decide)).2.1 200,
    by decide, by decide⟩

/-! ## Timed reads -/

namespace RoombaOI

theorem with_rx_self (s : RoombaOI) : { s with rx := s.rx } = s := by
  cases s; rfl

theorem fill_nil (m : Nat → Nat) (k : Nat) : fill m k [] = m := by
  funext i
  simp [fill]

theorem fill_cons (m : Nat → Nat) (k b : Nat) (bs : List Nat) :
    fill (store m k (toUInt8 (b : Int))) (k + 1) bs = fill m k (b :: bs) := by
  funext i
  unfold fill store
  by_cases h1 : i = k
  · subst h1
    simp
  · by_cases h2 : k + 1 ≤ i ∧ i < k + 1 + bs.length
    · have h3 : k ≤ i ∧ i < k + (b :: bs).length := by
        simp only [List.length_cons]; omega
      have h4 : i - k = (i - (k + 1)) + 1 := by omega
      rw [if_pos h2, if_pos h3, h4]
      rfl
    · have h3 : ¬ (k ≤ i ∧ i < k + (b :: bs).length) := by
        simp only [List.length_cons]; omega
      rw [if_neg h2, if_neg h3, if_neg h1]

theorem readBytesLoop_eq (numBytes : Nat) :
    ∀ (fuel bytesRead : Nat) (m : Nat → Nat) (s : RoombaOI),
      readBytesLoop numBytes fuel bytesRead m s
        = (bytesRead + min (min fuel (numBytes - bytesRead)) s.rx.length,
            fill m bytesRead (s.rx.take (min fuel (numBytes - bytesRead))),
            { s with rx := s.rx.drop (min fuel (numBytes - bytesRead)) }) := by
  intro fuel
  induction fuel with
  | zero =>
    intro k m s
    simp [readBytesLoop, fill_nil, with_rx_self]
  | succ fuel ih =>
    intro k m s
    unfold readBytesLoop
    by_cases hk : k < numBytes
    · rw [if_pos hk]
      cases hrx : s.rx with
      | nil =>
        have hs : { s with rx := [] } = s := by rw [← hrx]
        simp [serialAvailable, hrx, fill_nil, hs]
      | cons b rest =>
        have hmin : min (fuel + 1) (numBytes - k) = min fuel (numBytes - (k + 1)) + 1 := by
          omega
        simp only [serialAvailable, serialRead, hrx, if_true]
        rw [ih, hmin, fill_cons]
        simp only [List.take_succ_cons, List.drop_succ_cons, List.length_cons]
        refine Prod.ext ?_ rfl
        simp only
        omega
    · have h0 : numBytes - k = 0 := by omega
      rw [if_neg hk, h0]
      simp [fill_nil, with_rx_self]

theorem readBytes_eq (m : Nat → Nat) (numBytes timeout : Nat) (s : RoombaOI) :
    readBytes (some m) numBytes timeout s
      = (decide (numBytes ≤ s.rx.length), some (fill m 0 (s.rx.take numBytes)),
          { s with rx := s.rx.drop numBytes }) := by
  unfold readBytes
  simp only [readBytesLoop_eq, Nat.sub_zero, Nat.min_self, Nat.zero_add]
  refine Prod.ext ?_ rfl
  simp only [beq_iff_eq, decide_eq_decide.mpr]
  by_cases h : numBytes ≤ s.rx.length
  · simp [h]
  · simp only [h, decide_False]
    have : min numBytes s.rx.length ≠ numBytes := by omega
    simpa using this

end RoombaOI

/-! ## Sensor queries -/

namespace RoombaOI

theorem getSensor_eq (id : Nat) (m : Nat → Nat) (n : Nat) (s : RoombaOI)
    (hc : s.connected = true) :
    getSensor id (some m) n s
      = (decide (n ≤ s.rx.length), some (fill m 0 (s.rx.take n)),
          { delay 15 (sendCommand1 OI_SENSORS id s) with rx := s.rx.drop n }) := by
  unfold getSensor
  simp only [hc, Bool.not_true, Option.isNone_some, Bool.or_self, Bool.false_eq_true, if_false]
  rw [readBytes_eq]
  simp [sendCommand1, hc]

theorem getSensor_tx (id : Nat) (m : Nat → Nat) (n : Nat) (s : RoombaOI)
    (hc : s.connected = true) :
    (getSensor id (some m) n s).2.2.tx = s.tx ++ [142, id] := by
  rw [getSensor_eq id m n s hc]
  simp [sendCommand1, hc, OI_SENSORS]

theorem toUInt8_byte (b : Nat) (h : b < 256) : toUInt8 (b : Int) = b := by
  unfold toUInt8
  omega

theorem be16 (b0 b1 : Nat) (h1 : b1 < 256) : (b0 <<< 8 ||| b1) = 256 * b0 + b1 := by
  rw [Nat.shiftLeft_eq]
  have h := Nat.mul_add_lt_is_or (i := 8) h1 b0
  rw [Nat.mul_comm] at h
  omega

end RoombaOI

namespace RoombaOI

theorem fill_two_0 (m : Nat → Nat) (b0 b1 : Nat) (h0 : b0 < 256) :
    fill m 0 [b0, b1] 0 = b0 := by
  simp [fill, toUInt8_byte b0 h0]

theorem fill_two_1 (m : Nat → Nat) (b0 b1 : Nat) (h1 : b1 < 256) :
    fill m 0 [b0, b1] 1 = b1 := by
  simp [fill, toUInt8_byte b1 h1]

theorem getSensor_short (id : Nat) (data : Option (Nat → Nat)) (n : Nat) (s : RoombaOI)
    (h : s.rx.length < n) : (getSensor id data n s).1 = false := by
  cases data with
  | none => simp [getSensor]
  | some m =>
    by_cases hc : s.connected = true
    · rw [getSensor_eq id m n s hc]
      simp only [decide_eq_false_iff_not]
      omega
    · simp [getSensor, hc]

end RoombaOI

/-- C5: on a connected instance whose channel delivers the response bytes `b0`, `b1`,
`getBatteryVoltage` writes `[142, 22]` and returns the unsigned value `256 * b0 + b1`, and
`getBatteryCurrent` writes `[142, 23]` and returns the same 16-bit pattern read as two's
complement; both consume exactly the two response bytes. -/
theorem battery_getters_decode_big_endian (s : RoombaOI) (b0 b1 : Nat) (rest : List Nat)
    (hc : s.connected = true) (h0 : b0 < 256) (h1 : b1 < 256)
    (hrx : s.rx = b0 :: b1 :: rest) :
    (RoombaOI.getBatteryVoltage s).1 = 256 * b0 + b1
      ∧ (RoombaOI.getBatteryVoltage s).2.tx = s.tx ++ [142, 22]
      ∧ (RoombaOI.getBatteryVoltage s).2.rx = rest
      ∧ (RoombaOI.getBatteryCurrent s).1
          = (if b0 < 128 then (256 * b0 + b1 : Int) else 256 * b0 + b1 - 65536)
      ∧ (RoombaOI.getBatteryCurrent s).2.tx = s.tx ++ [142, 23]
      ∧ (RoombaOI.getBatteryCurrent s).2.rx = rest := by
  have hv := RoombaOI.getSensor_eq SENSOR_VOLTAGE RoombaOI.localArray 2 s hc
  have hi := RoombaOI.getSensor_eq SENSOR_CURRENT RoombaOI.localArray 2 s hc
  have hlen : decide (2 ≤ s.rx.length) = true := by simp [hrx]
  have htake : s.rx.take 2 = [b0, b1] := by simp [hrx]
  have hdrop : s.rx.drop 2 = rest := by simp [hrx]
  rw [hlen, htake, hdrop] at hv hi
  unfold RoombaOI.getBatteryVoltage RoombaOI.getBatteryCurrent
  simp only [hv, hi, if_true, RoombaOI.deref, RoombaOI.fill_two_0 _ b0 b1 h0,
    RoombaOI.fill_two_1 _ b0 b1 h1, RoombaOI.be16 b0 b1 h1]
  refine ⟨?_, ?_, ?_, ?_, ?_, ?_⟩
  · unfold toUInt16; omega
  · simp [RoombaOI.sendCommand1, hc, OI_SENSORS, SENSOR_VOLTAGE]
  · trivial
  · unfold toInt16; split_ifs <;> omega
  · simp [RoombaOI.sendCommand1, hc, OI_SENSORS, SENSOR_CURRENT]
  · trivial

/-- Instances of C5: the response `[0x0F, 0xA0]` reads as the voltage 4000 and the response
`[0xFF, 0x38]` reads as the current -200. -/
theorem battery_getters_decode_big_endian_witness :
    (RoombaOI.begin 19200 (RoombaOI.new 10 11 5 [0x0F, 0xA0])).2.connected = true
      ∧ (RoombaOI.begin 19200 (RoombaOI.new 10 11 5 [0x0F, 0xA0])).2.rx = [0x0F, 0xA0]
      ∧ (RoombaOI.getBatteryVoltage
          (RoombaOI.begin 19200 (RoombaOI.new 10 11 5 [0x0F, 0xA0])).2).1 = 4000
      ∧ (RoombaOI.begin 19200 (RoombaOI.new 10 11 5 [0xFF, 0x38])).2.connected = true
      ∧ (RoombaOI.begin 19200 (RoombaOI.new 10 11 5 [0xFF, 0x38])).2.rx = [0xFF, 0x38]
      ∧ (RoombaOI.getBatteryCurrent
          (RoombaOI.begin 19200 (RoombaOI.new 10 11 5 [0xFF, 0x38])).2).1 = -200 :=
  ⟨by decide, by decide,
    (battery_getters_decode_big_endian
      (RoombaOI.begin 19200 (RoombaOI.new 10 11 5 [0x0F, 0xA0])).2 0x0F 0xA0 []
      (by decide) (by decide) (by decide) (by decide)).1,
    by decide, by decide,
    (battery_getters_decode_big_endian
      (RoombaOI.begin 19200 (RoombaOI.new 10 11 5 [0xFF, 0x38])).2 0xFF 0x38 []
      (by decide) (by decide) (by decide) (by decide)).2.2.2.1⟩

/-- C6: on a connected instance, when fewer than the requested `n` bytes arrive before the
deadline `getSensor` returns false; the battery getters return 0 when fewer than two bytes
arrive, whatever the value of a single byte that did arrive, and the wall and bumper getters
return false when nothing arrives. -/
theorem short_read_gives_failure_and_zero (s : RoombaOI) (hc : s.connected = true) :
    (∀ id data n, s.rx.length < n → (RoombaOI.getSensor id data n s).1 = false)
      ∧ (s.rx.length < 2 →
          (RoombaOI.getBatteryVoltage s).1 = 0 ∧ (RoombaOI.getBatteryCurrent s).1 = 0)
      ∧ (s.rx = [] →
          (RoombaOI.isWallDetected s).1 = false ∧ (RoombaOI.isBumperPressed s).1 = false) := by
  refine ⟨?_, ?_, ?_⟩
  · intro id data n h
    exact RoombaOI.getSensor_short id data n s h
  · intro h
    unfold RoombaOI.getBatteryVoltage RoombaOI.getBatteryCurrent
    simp [RoombaOI.getSensor_short _ _ 2 s h]
  · intro h
    have h1 : s.rx.length < 1 := by simp [h]
    unfold RoombaOI.isWallDetected RoombaOI.isBumperPressed
    simp [RoombaOI.getSensor_short _ _ 1 s h1]

/-- Instance of C6: a connected instance that receives the single byte 0xFF. -/
theorem short_read_gives_failure_and_zero_witness :
    (RoombaOI.begin 19200 (RoombaOI.new 10 11 5 [0xFF])).2.connected = true
      ∧ (RoombaOI.begin 19200 (RoombaOI.new 10 11 5 [0xFF])).2.rx.length < 2
      ∧ (RoombaOI.getBatteryVoltage (RoombaOI.begin 19200 (RoombaOI.new 10 11 5 [0xFF])).2).1
          = 0
      ∧ (RoombaOI.getBatteryCurrent (RoombaOI.begin 19200 (RoombaOI.new 10 11 5 [0xFF])).2).1
          = 0 :=
  ⟨by decide, by decide,
    (short_read_gives_failure_and_zero (RoombaOI.begin 19200 (RoombaOI.new 10 11 5 [0xFF])).2
      (by decide)).2.1 (by decide)⟩

/-- C7, as stated, fails: a connected instance asks for two bytes into a zeroed buffer and
only the byte 7 arrives; `getSensor` returns false, yet offset 0 of the buffer now holds 7. -/
theorem failed_getSensor_changes_buffer :
    (RoombaOI.getSensor 22 (some RoombaOI.localArray) 2
        (RoombaOI.begin 19200 (RoombaOI.new 10 11 5 [7])).2).1 = false
      ∧ RoombaOI.deref (RoombaOI.getSensor 22 (some RoombaOI.localArray) 2
          (RoombaOI.begin 19200 (RoombaOI.new 10 11 5 [7])).2).2.1 0 = 7
      ∧ RoombaOI.deref (some RoombaOI.localArray) 0 = 0
      ∧ RoombaOI.deref (RoombaOI.getSensor 22 (some RoombaOI.localArray) 2
          (RoombaOI.begin 19200 (RoombaOI.new 10 11 5 [7])).2).2.1 0
        ≠ RoombaOI.deref (some RoombaOI.localArray) 0 := by
  decide

/-- C7, amended: when `getSensor id data n` fails on a connected instance because only
`k < n` bytes arrived, it returns false, the first `k` positions of the buffer hold the `k`
bytes that arrived, every position from `k` on holds what it held before the call, and the
bytes that arrived have been consumed. -/
theorem failed_getSensor_keeps_buffer_beyond_arrived (s : RoombaOI) (id n : Nat)
    (m : Nat → Nat) (hc : s.connected = true) (hb : ∀ b ∈ s.rx, b < 256)
    (hshort : s.rx.length < n) :
    (RoombaOI.getSensor id (some m) n s).1 = false
      ∧ (∀ i, RoombaOI.deref (RoombaOI.getSensor id (some m) n s).2.1 i
            = if i < s.rx.length then s.rx.getD i 0 else m i)
      ∧ (RoombaOI.getSensor id (some m) n s).2.2.rx = [] := by
  rw [RoombaOI.getSensor_eq id m n s hc]
  have htake : s.rx.take n = s.rx := List.take_of_length_le (by omega)
  have hdrop : s.rx.drop n = [] := List.drop_of_length_le (by omega)
  rw [htake, hdrop]
  refine ⟨?_, ?_, ?_⟩
  · simp only [decide_eq_false_iff_not]; omega
  · intro i
    simp only [RoombaOI.deref, fill, Nat.zero_le, true_and, Nat.zero_add, Nat.sub_zero]
    by_cases hi : i < s.rx.length
    · rw [if_pos hi, if_pos hi]
      apply RoombaOI.toUInt8_byte
      apply hb
      rw [List.getD_eq_getElem _ _ hi]
      exact List.getElem_mem hi
    · rw [if_neg hi, if_neg hi]
  · rfl

/-- Instance of amended C7: two bytes requested, only the byte 7 arrives. -/
theorem failed_getSensor_keeps_buffer_beyond_arrived_witness :
    (RoombaOI.begin 19200 (RoombaOI.new 10 11 5 [7])).2.connected = true
      ∧ (RoombaOI.begin 19200 (RoombaOI.new 10 11 5 [7])).2.rx.length < 2
      ∧ (RoombaOI.getSensor 22 (some RoombaOI.localArray) 2
          (RoombaOI.begin 19200 (RoombaOI.new 10 11 5 [7])).2).1 = false :=
  ⟨by decide, by decide,
    (failed_getSensor_keeps_buffer_beyond_arrived
      (RoombaOI.begin 19200 (RoombaOI.new 10 11 5 [7])).2 22 2 RoombaOI.localArray
      (by decide) (by decide) (by decide)).1⟩

/-! ## Stream frames -/

namespace RoombaOI

theorem millis_with_rx (s : RoombaOI) (r : List Nat) : millis { s with rx := r } = millis s :=
  rfl

theorem readStreamLoop_closed (bufferSize timeout fuel : Nat) (m : Nat → Nat) (s : RoombaOI)
    (hclosed : ¬ millis s < timeout) :
    readStreamLoop bufferSize timeout fuel m s = (false, some m, s) := by
  cases fuel with
  | zero => rfl
  | succ k =>
    show (if millis s < timeout then _ else _) = _
    rw [if_neg hclosed]

theorem readStreamLoop_succ (bufferSize timeout fuel : Nat) (m : Nat → Nat) (s : RoombaOI)
    (hopen : millis s < timeout) :
    readStreamLoop bufferSize timeout (fuel + 1) m s
      = if serialAvailable s then
          if (serialRead s).1 == 19 then
            if (readByte 50 (serialRead s).2).1 > 0
                && (readByte 50 (serialRead s).2).1 ≤ bufferSize then
              readBytes (some m) (readByte 50 (serialRead s).2).1 100
                (readByte 50 (serialRead s).2).2
            else readStreamLoop bufferSize timeout fuel m (readByte 50 (serialRead s).2).2
          else readStreamLoop bufferSize timeout fuel m (serialRead s).2
        else (false, some m, s) := by
  show (if millis s < timeout then _ else _) = _
  rw [if_pos hopen]

theorem readStreamLoop_skip (bufferSize timeout : Nat) (m : Nat → Nat) (rest : List Nat) :
    ∀ (pre : List Nat) (fuel : Nat) (s : RoombaOI), millis s < timeout →
      (∀ b ∈ pre, b ≠ 19) → s.rx = pre ++ rest →
      readStreamLoop bufferSize timeout (pre.length + fuel) m s
        = readStreamLoop bufferSize timeout fuel m { s with rx := rest } := by
  intro pre
  induction pre with
  | nil =>
    intro fuel s _ _ hrx
    have hs : { s with rx := rest } = s := by rw [← List.nil_append rest, ← hrx]
    simp [hs]
  | cons b pre ih =>
    intro fuel s hopen hpre hrx
    have hb : ((b : Int) == 19) = false := by
      have h := hpre b (List.mem_cons_self b pre)
      simp only [beq_eq_false_iff_ne, ne_eq]
      omega
    have hfuel : (b :: pre).length + fuel = (pre.length + fuel) + 1 := by
      simp only [List.length_cons]; omega
    rw [hfuel, readStreamLoop_succ _ _ _ _ _ hopen]
    simp only [serialAvailable, serialRead, hrx, List.cons_append, if_true, hb,
      Bool.false_eq_true, if_false]
    exact ih fuel { s with rx := pre ++ rest } hopen
      (fun c hc => hpre c (List.mem_cons_of_mem b hc)) rfl

theorem readStreamLoop_header_ok (bufferSize timeout n fuel : Nat) (m : Nat → Nat)
    (rest : List Nat) (s : RoombaOI) (hopen : millis s < timeout) (h1 : 1 ≤ n)
    (h2 : n ≤ bufferSize) (h3 : n < 256) (hrx : s.rx = 19 :: n :: rest) :
    readStreamLoop bufferSize timeout (fuel + 1) m s
      = readBytes (some m) n 100 { s with rx := rest } := by
  have hn : toUInt8 (n : Int) = n := toUInt8_byte n h3
  have hv : (decide (n > 0) && decide (n ≤ bufferSize)) = true := by
    simp only [Bool.and_eq_true, decide_eq_true_eq]; omega
  rw [readStreamLoop_succ _ _ _ _ _ hopen]
  simp only [serialAvailable, serialRead, hrx, readByte, if_true, Nat.cast_ofNat, beq_self_eq_true,
    hn, hv]

theorem readStreamLoop_header_bad (bufferSize timeout sz fuel : Nat) (m : Nat → Nat)
    (rest : List Nat) (s : RoombaOI) (hopen : millis s < timeout)
    (h1 : sz = 0 ∨ bufferSize < sz) (h3 : sz < 256) (hrx : s.rx = 19 :: sz :: rest) :
    readStreamLoop bufferSize timeout (fuel + 1) m s
      = readStreamLoop bufferSize timeout fuel m { s with rx := rest } := by
  have hn : toUInt8 (sz : Int) = sz := toUInt8_byte sz h3
  have hv : (decide (sz > 0) && decide (sz ≤ bufferSize)) = false := by
    simp only [Bool.and_eq_false_iff, decide_eq_false_iff_not]; omega
  rw [readStreamLoop_succ _ _ _ _ _ hopen]
  simp only [serialAvailable, serialRead, hrx, readByte, if_true, Nat.cast_ofNat, beq_self_eq_true,
    hn, hv, Bool.false_eq_true, if_false]

theorem readStreamLoop_empty (bufferSize timeout fuel : Nat) (m : Nat → Nat) (s : RoombaOI)
    (hrx : s.rx = []) : readStreamLoop bufferSize timeout fuel m s = (false, some m, s) := by
  by_cases hopen : millis s < timeout
  · cases fuel with
    | zero => rfl
    | succ k =>
      rw [readStreamLoop_succ _ _ _ _ _ hopen]
      simp [serialAvailable, hrx]
  · exact readStreamLoop_closed _ _ _ _ _ hopen

end RoombaOI

namespace RoombaOI

/-- Fuel is never the reason the header loop stops: any two amounts of fuel above the number
of pending bytes give the same result. -/
theorem readStreamLoop_fuel (bufferSize timeout : Nat) (m : Nat → Nat) :
    ∀ (fuel1 fuel2 : Nat) (s : RoombaOI), s.rx.length < fuel1 → s.rx.length < fuel2 →
      readStreamLoop bufferSize timeout fuel1 m s
        = readStreamLoop bufferSize timeout fuel2 m s := by
  intro fuel1
  induction fuel1 with
  | zero => intro fuel2 s h1 _; omega
  | succ f1 ih =>
    intro fuel2 s h1 h2
    by_cases hopen : millis s < timeout
    · cases fuel2 with
      | zero => omega
      | succ f2 =>
        rw [readStreamLoop_succ _ _ _ _ _ hopen, readStreamLoop_succ _ _ _ _ _ hopen]
        cases hrx : s.rx with
        | nil => simp [serialAvailable, hrx]
        | cons b rest =>
          rw [hrx] at h1 h2
          simp only [List.length_cons] at h1 h2
          simp only [serialAvailable, serialRead, hrx, if_true]
          by_cases hb : ((b : Int) == 19) = true
          · simp only [hb, if_true]
            cases rest with
            | nil =>
              simp only [readByte, serialAvailable, Bool.false_eq_true, if_false]
              simp only [gt_iff_lt, Nat.lt_irrefl, decide_False, Bool.false_and,
                Bool.false_eq_true, if_false]
              rw [readStreamLoop_empty _ _ _ _ _ rfl, readStreamLoop_empty _ _ _ _ _ rfl]
            | cons c rest2 =>
              simp only [List.length_cons] at h1 h2
              simp only [readByte, serialAvailable, serialRead, if_true]
              split
              · rfl
              · exact ih f2 _ (by simp only; omega) (by simp only; omega)
          · simp only [hb, if_false]
            exact ih f2 _ (by simp only; omega) (by simp only; omega)
    · rw [readStreamLoop_closed _ _ _ _ _ hopen, readStreamLoop_closed _ _ _ _ _ hopen]

theorem readStreamData_eq (bufferSize : Nat) (m : Nat → Nat) (s : RoombaOI)
    (hc : s.connected = true) (fuel : Nat) (hf : s.rx.length < fuel) :
    readStreamData (some m) bufferSize s
      = readStreamLoop bufferSize ((millis s + 100) % 4294967296) fuel m s := by
  unfold readStreamData
  simp only [hc, Bool.not_true, Bool.false_eq_true, if_false]
  exact readStreamLoop_fuel bufferSize _ m _ _ s (by omega) hf

/-- The header window is open at the start of the call when the sum `millis() + 100` does
not wrap. -/
theorem window_open (s : RoombaOI) (hwin : millis s + 100 < 4294967296) :
    millis s < (millis s + 100) % 4294967296 := by
  rw [Nat.mod_eq_of_lt hwin]; omega

/-- The header window is closed at the start of the call when the sum wraps. -/
theorem window_closed (s : RoombaOI) (hwrap : 4294967296 ≤ millis s + 100) :
    ¬ millis s < (millis s + 100) % 4294967296 := by
  have h : millis s < 4294967296 := Nat.mod_lt _ (by norm_num)
  omega

theorem readStreamData_closed (bufferSize : Nat) (m : Nat → Nat) (s : RoombaOI)
    (hc : s.connected = true) (hclosed : ¬ millis s < (millis s + 100) % 4294967296) :
    readStreamData (some m) bufferSize s = (false, some m, s) := by
  rw [readStreamData_eq bufferSize m s hc _ (Nat.lt_succ_self _)]
  exact readStreamLoop_closed _ _ _ _ _ hclosed

end RoombaOI

namespace RoombaOI

/-- Fuel is never the reason the loop of `readBytes` stops: any fuel of at least the number
of bytes still wanted gives the same result. -/
theorem readBytesLoop_fuel (numBytes fuel1 fuel2 bytesRead : Nat) (m : Nat → Nat)
    (s : RoombaOI) (h1 : numBytes - bytesRead ≤ fuel1) (h2 : numBytes - bytesRead ≤ fuel2) :
    readBytesLoop numBytes fuel1 bytesRead m s = readBytesLoop numBytes fuel2 bytesRead m s := by
  rw [readBytesLoop_eq, readBytesLoop_eq, Nat.min_eq_right h1, Nat.min_eq_right h2]

theorem fill_at (m : Nat → Nat) (p : List Nat) (hp : ∀ b ∈ p, b < 256) (i : Nat) :
    fill m 0 p i = if i < p.length then p.getD i 0 else m i := by
  simp only [fill, Nat.zero_le, true_and, Nat.zero_add, Nat.sub_zero]
  by_cases hi : i < p.length
  · rw [if_pos hi, if_pos hi]
    apply toUInt8_byte
    apply hp
    rw [List.getD_eq_getElem _ _ hi]
    exact List.getElem_mem hi
  · rw [if_neg hi, if_neg hi]

end RoombaOI

/-- While the header window is open a frame is parsed: on a connected instance whose clock is
more than 100 ms away from wrapping, when the channel delivers bytes other than 19, then the
header 19, a size byte `n` with `1 ≤ n ≤ bufferSize`, and a payload `p` of `n` bytes,
`readStreamData buffer bufferSize` returns true, the first `n` positions of the buffer hold
`p`, the positions from `n` on are unchanged, everything up to the end of the payload has
been read and nothing has been written to the channel. -/
theorem readStreamData_yields_frame (s : RoombaOI) (m : Nat → Nat) (bufferSize n : Nat)
    (pre p rest : List Nat) (hc : s.connected = true)
    (hwin : RoombaOI.millis s + 100 < 4294967296) (hn1 : 1 ≤ n) (hn2 : n ≤ bufferSize)
    (hbs : bufferSize < 256) (hp : p.length = n) (hpb : ∀ b ∈ p, b < 256)
    (hpre : ∀ b ∈ pre, b ≠ 19) (hrx : s.rx = pre ++ [19, n] ++ p ++ rest) :
    (RoombaOI.readStreamData (some m) bufferSize s).1 = true
      ∧ (∀ i, i < n →
          RoombaOI.deref (RoombaOI.readStreamData (some m) bufferSize s).2.1 i = p.getD i 0)
      ∧ (∀ i, n ≤ i →
          RoombaOI.deref (RoombaOI.readStreamData (some m) bufferSize s).2.1 i = m i)
      ∧ (RoombaOI.readStreamData (some m) bufferSize s).2.2.rx = rest
      ∧ (RoombaOI.readStreamData (some m) bufferSize s).2.2.tx = s.tx := by
  have hopen := RoombaOI.window_open s hwin
  have hrx2 : s.rx = pre ++ (19 :: n :: (p ++ rest)) := by simp [hrx]
  have hlen : s.rx.length < pre.length + ((p ++ rest).length + 2 + 1) := by
    rw [hrx2]; simp only [List.length_append, List.length_cons]; omega
  rw [RoombaOI.readStreamData_eq bufferSize m s hc _ hlen,
    RoombaOI.readStreamLoop_skip bufferSize _ m _ pre _ s hopen hpre hrx2,
    RoombaOI.readStreamLoop_header_ok bufferSize _ n _ m (p ++ rest)
      { s with rx := 19 :: n :: (p ++ rest) } hopen hn1 hn2 (by omega) rfl,
    RoombaOI.readBytes_eq]
  have htake : (p ++ rest).take n = p := by rw [← hp]; exact List.take_left' rfl
  have hdrop : (p ++ rest).drop n = rest := by rw [← hp]; exact List.drop_left' rfl
  simp only [htake, hdrop]
  refine ⟨?_, ?_, ?_, ?_, ?_⟩
  · simp only [List.length_append, decide_eq_true_eq]; omega
  · intro i hi
    simp only [RoombaOI.deref]
    rw [RoombaOI.fill_at m p hpb, if_pos (by omega)]
  · intro i hi
    simp only [RoombaOI.deref]
    rw [RoombaOI.fill_at m p hpb, if_neg (by omega)]
  · trivial
  · trivial

/-- Instance of the frame lemma: the bytes `[19, 3, 0xAA, 0xBB, 0xCC]` after two stray bytes,
with a ten-byte buffer and the clock at 0, yield the three-byte frame. -/
theorem readStreamData_yields_frame_witness :
    (RoombaOI.begin 19200
        (RoombaOI.new 10 11 5 [7, 8, 19, 3, 0xAA, 0xBB, 0xCC])).2.connected = true
      ∧ (RoombaOI.readStreamData (some RoombaOI.localArray) 10 (RoombaOI.begin 19200
          (RoombaOI.new 10 11 5 [7, 8, 19, 3, 0xAA, 0xBB, 0xCC])).2).1 = true
      ∧ (∀ i, i < 3 →
          RoombaOI.deref (RoombaOI.readStreamData (some RoombaOI.localArray) 10
            (RoombaOI.begin 19200
              (RoombaOI.new 10 11 5 [7, 8, 19, 3, 0xAA, 0xBB, 0xCC])).2).2.1 i
            = [0xAA, 0xBB, 0xCC].getD i 0) :=
  ⟨by decide,
    (readStreamData_yields_frame
      (RoombaOI.begin 19200 (RoombaOI.new 10 11 5 [7, 8, 19, 3, 0xAA, 0xBB, 0xCC])).2
      RoombaOI.localArray 10 3 [7, 8] [0xAA, 0xBB, 0xCC] [] (by decide) (by decide)
      (by decide) (by decide) (by decide) (by decide) (by decide) (by decide)
      (by decide)).1,
    (readStreamData_yields_frame
      (RoombaOI.begin 19200 (RoombaOI.new 10 11 5 [7, 8, 19, 3, 0xAA, 0xBB, 0xCC])).2
      RoombaOI.localArray 10 3 [7, 8] [0xAA, 0xBB, 0xCC] [] (by decide) (by decide)
      (by decide) (by decide) (by decide) (by decide) (by decide) (by decide)
      (by decide)).2.1⟩

/-- C8: the claim fails on the code when the clock is within 100 ms of wrapping.  A connected
instance with a ten-byte buffer receives `[19, 3, 0xAA, 0xBB, 0xCC]` while `millis()` reads
4294967245 (50 ms before the 32-bit clock wraps): the end of the header window,
`millis() + 100`, wraps to 49, the loop test `millis() < timeout` is false at once, and
`readStreamData` returns false with the five bytes still pending and the buffer untouched.
The same instance at clock reading 0 returns true with 0xAA, 0xBB, 0xCC in the buffer. -/
theorem readStreamData_misses_frame_at_clock_wrap :
    (RoombaOI.atClock 4294967245
        (RoombaOI.begin 19200 (RoombaOI.new 10 11 5 [19, 3, 0xAA, 0xBB, 0xCC])).2).connected
        = true
      ∧ RoombaOI.millis (RoombaOI.atClock 4294967245
          (RoombaOI.begin 19200 (RoombaOI.new 10 11 5 [19, 3, 0xAA, 0xBB, 0xCC])).2)
        = 4294967245
      ∧ (4294967245 + 100) % 4294967296 = 49
      ∧ (RoombaOI.readStreamData (some RoombaOI.localArray) 10
          (RoombaOI.atClock 4294967245
            (RoombaOI.begin 19200 (RoombaOI.new 10 11 5 [19, 3, 0xAA, 0xBB, 0xCC])).2)).1
        = false
      ∧ (RoombaOI.readStreamData (some RoombaOI.localArray) 10
          (RoombaOI.atClock 4294967245
            (RoombaOI.begin 19200
              (RoombaOI.new 10 11 5 [19, 3, 0xAA, 0xBB, 0xCC])).2)).2.2.rx
        = [19, 3, 0xAA, 0xBB, 0xCC]
      ∧ RoombaOI.deref (RoombaOI.readStreamData (some RoombaOI.localArray) 10
          (RoombaOI.atClock 4294967245
            (RoombaOI.begin 19200
              (RoombaOI.new 10 11 5 [19, 3, 0xAA, 0xBB, 0xCC])).2)).2.1 0
        = 0
      ∧ (RoombaOI.readStreamData (some RoombaOI.localArray) 10
          (RoombaOI.begin 19200 (RoombaOI.new 10 11 5 [19, 3, 0xAA, 0xBB, 0xCC])).2).1
        = true
      ∧ RoombaOI.deref (RoombaOI.readStreamData (some RoombaOI.localArray) 10
          (RoombaOI.begin 19200 (RoombaOI.new 10 11 5 [19, 3, 0xAA, 0xBB, 0xCC])).2).2.1 0
        = 0xAA := by
  decide

/-- C9, as stated, fails: with a ten-byte buffer and the stream `[19, 0, 19, 1, 7]` the
first header is followed by the size byte 0, yet `readStreamData` returns true and has
stored the byte 7 at offset 0 of the buffer, taken from the frame that follows. -/
theorem readStreamData_resumes_after_malformed_frame :
    (RoombaOI.readStreamData (some RoombaOI.localArray) 10
        (RoombaOI.begin 19200 (RoombaOI.new 10 11 5 [19, 0, 19, 1, 7])).2).1 = true
      ∧ RoombaOI.deref (RoombaOI.readStreamData (some RoombaOI.localArray) 10
          (RoombaOI.begin 19200 (RoombaOI.new 10 11 5 [19, 0, 19, 1, 7])).2).2.1 0 = 7
      ∧ RoombaOI.deref (some RoombaOI.localArray) 0 = 0 := by
  decide

/-- C9, amended: on a connected instance, when the first header byte 19 is followed by a
size byte that is 0 or greater than `bufferSize`, that frame is discarded without reading a
payload for it and the search for a header goes on with the bytes after the size byte, as if
the call had started there: the result and the buffer are those of a call started on these
bytes, at every clock reading, and so is the whole state unless the clock is within 100 ms of
wrapping; when none of those bytes is 19 (in particular when nothing follows, as for
`[19, 0]` and for `[19, 250]` with a ten-byte buffer) the call returns false and the buffer
is unchanged, at every clock reading, and unless the clock is within 100 ms of wrapping all
the pending bytes have been read. -/
theorem readStreamData_discards_malformed_frame (s : RoombaOI) (m : Nat → Nat)
    (bufferSize sz : Nat) (pre rest : List Nat) (hc : s.connected = true)
    (hsz : sz = 0 ∨ bufferSize < sz) (hbyte : sz < 256) (hpre : ∀ b ∈ pre, b ≠ 19)
    (hrx : s.rx = pre ++ [19, sz] ++ rest) :
    (RoombaOI.readStreamData (some m) bufferSize s).1
        = (RoombaOI.readStreamData (some m) bufferSize { s with rx := rest }).1
      ∧ (RoombaOI.readStreamData (some m) bufferSize s).2.1
        = (RoombaOI.readStreamData (some m) bufferSize { s with rx := rest }).2.1
      ∧ (RoombaOI.millis s + 100 < 4294967296 →
          RoombaOI.readStreamData (some m) bufferSize s
            = RoombaOI.readStreamData (some m) bufferSize { s with rx := rest })
      ∧ ((∀ b ∈ rest, b ≠ 19) →
          (RoombaOI.readStreamData (some m) bufferSize s).1 = false
            ∧ (RoombaOI.readStreamData (some m) bufferSize s).2.1 = some m
            ∧ (RoombaOI.millis s + 100 < 4294967296 →
                RoombaOI.readStreamData (some m) bufferSize s
                  = (false, some m, { s with rx := [] }))) := by
  have hrx2 : s.rx = pre ++ (19 :: sz :: rest) := by simp [hrx]
  have hlen : s.rx.length < pre.length + ((rest.length + 2) + 1) := by
    rw [hrx2]; simp only [List.length_append, List.length_cons]; omega
  have hresume : RoombaOI.millis s + 100 < 4294967296 →
      RoombaOI.readStreamData (some m) bufferSize s
        = RoombaOI.readStreamData (some m) bufferSize { s with rx := rest } := by
    intro hwin
    have hopen := RoombaOI.window_open s hwin
    rw [RoombaOI.readStreamData_eq bufferSize m s hc _ hlen,
      RoombaOI.readStreamLoop_skip bufferSize _ m _ pre _ s hopen hpre hrx2,
      RoombaOI.readStreamLoop_header_bad bufferSize _ sz _ m rest
        { s with rx := 19 :: sz :: rest } hopen hsz hbyte rfl,
      RoombaOI.readStreamData_eq bufferSize m { s with rx := rest } hc (rest.length + 2)
        (by simp only; omega)]
    rfl
  have hquiet : (∀ b ∈ rest, b ≠ 19) → RoombaOI.millis s + 100 < 4294967296 →
      RoombaOI.readStreamData (some m) bufferSize s = (false, some m, { s with rx := [] }) := by
    intro hrest hwin
    have hopen := RoombaOI.window_open s hwin
    rw [hresume hwin,
      RoombaOI.readStreamData_eq bufferSize m { s with rx := rest } hc (rest.length + 1)
        (Nat.lt_succ_self _),
      RoombaOI.millis_with_rx,
      RoombaOI.readStreamLoop_skip bufferSize _ m [] rest 1 { s with rx := rest } hopen hrest
        (List.append_nil rest).symm,
      RoombaOI.readStreamLoop_empty _ _ _ _ _ rfl]
  by_cases hwin : RoombaOI.millis s + 100 < 4294967296
  · refine ⟨by rw [hresume hwin], by rw [hresume hwin], hresume, ?_⟩
    intro hrest
    rw [hquiet hrest hwin]
    exact ⟨rfl, rfl, fun _ => rfl⟩
  · have hclosed := RoombaOI.window_closed s (by omega)
    have h1 := RoombaOI.readStreamData_closed bufferSize m s hc hclosed
    have h2 := RoombaOI.readStreamData_closed bufferSize m { s with rx := rest } hc hclosed
    rw [h1, h2]
    exact ⟨rfl, rfl, fun h => absurd h hwin, fun _ => ⟨rfl, rfl, fun h => absurd h hwin⟩⟩

/-- Instance of amended C9: `[19, 250]` with a ten-byte buffer and the clock at 0. -/
theorem readStreamData_discards_malformed_frame_witness :
    (RoombaOI.begin 19200 (RoombaOI.new 10 11 5 [19, 250])).2.connected = true
      ∧ RoombaOI.readStreamData (some RoombaOI.localArray) 10
          (RoombaOI.begin 19200 (RoombaOI.new 10 11 5 [19, 250])).2
        = (false, some RoombaOI.localArray,
            { (RoombaOI.begin 19200 (RoombaOI.new 10 11 5 [19, 250])).2 with rx := [] }) :=
  ⟨by decide,
    ((readStreamData_discards_malformed_frame
      (RoombaOI.begin 19200 (RoombaOI.new 10 11 5 [19, 250])).2 RoombaOI.localArray 10 250
      [] [] (by decide) (by decide) (by decide) (by decide) (by decide)).2.2.2
        (by decide)).2.2 (by decide)⟩

/-- C10, as stated, fails: on a connected instance `startSensorStream` with a non-null list
and count 0 returns false and writes nothing, whereas `stopSensorStream` writes
`[148, 0]`. -/
theorem startSensorStream_rejects_zero_count :
    (RoombaOI.startSensorStream (some []) 0
        (RoombaOI.begin 19200 (RoombaOI.new 10 11 5 [])).2).1 = false
      ∧ (RoombaOI.startSensorStream (some []) 0
        (RoombaOI.begin 19200 (RoombaOI.new 10 11 5 [])).2).2.tx = []
      ∧ (RoombaOI.stopSensorStream
        (RoombaOI.begin 19200 (RoombaOI.new 10 11 5 [])).2).2.tx = [148, 0] := by
  decide

/-- C10, amended: on a connected instance `startSensorStream list 0` is rejected, for every
list: it returns false and leaves the instance and the channel as they were; a stream is
stopped through `stopSensorStream`, which returns true and writes `[148, 0]`. -/
theorem zero_count_rejected_and_stop_writes_empty_list (s : RoombaOI)
    (hc : s.connected = true) :
    (∀ list, RoombaOI.startSensorStream list 0 s = (false, s))
      ∧ (RoombaOI.stopSensorStream s).1 = true
      ∧ (RoombaOI.stopSensorStream s).2.tx = s.tx ++ [148, 0]
      ∧ (RoombaOI.stopSensorStream s).2.rx = s.rx := by
  refine ⟨?_, ?_, ?_, ?_⟩
  · intro list
    cases list <;> simp [RoombaOI.startSensorStream]
  · simp [RoombaOI.stopSensorStream, hc]
  · simp [RoombaOI.stopSensorStream, hc, RoombaOI.sendCommand1, OI_STREAM]
  · simp [RoombaOI.stopSensorStream, hc, RoombaOI.sendCommand1]

/-- Instance of amended C10 on a freshly opened instance. -/
theorem zero_count_rejected_and_stop_writes_empty_list_witness :
    (RoombaOI.begin 19200 (RoombaOI.new 10 11 5 [])).2.connected = true
      ∧ (RoombaOI.stopSensorStream (RoombaOI.begin 19200 (RoombaOI.new 10 11 5 [])).2).1
        = true
      ∧ (RoombaOI.stopSensorStream (RoombaOI.begin 19200 (RoombaOI.new 10 11 5 [])).2).2.tx
        = [] ++ [148, 0] :=
  ⟨by decide,
    (zero_count_rejected_and_stop_writes_empty_list
      (RoombaOI.begin 19200 (RoombaOI.new 10 11 5 [])).2 (by decide)).2.1,
    (zero_count_rejected_and_stop_writes_empty_list
      (RoombaOI.begin 19200 (RoombaOI.new 10 11 5 [])).2 (by decide)).2.2.1⟩

/-! ## Stream configuration -/

namespace RoombaOI

theorem range_map_getD (a : List Nat) :
    (List.range a.length).map (fun i => a.getD i 0) = a := by
  apply List.ext_getElem
  · simp
  · intro i h1 h2
    simp only [List.length_map, List.length_range] at h1
    simp [List.getElem?_eq_getElem h1]

end RoombaOI

/-- C11: on a connected instance `startSensorStream ids n`, for a list `ids` of `n`
identifiers with `1 ≤ n ≤ 255`, returns true and appends exactly 148, `n` and the `n`
identifiers in list order, unmodified; `stopSensorStream` returns true and appends exactly
`[148, 0]`.  Neither reads from the channel. -/
theorem startSensorStream_writes_count_then_ids (s : RoombaOI) (ids : List Nat) (n : Nat)
    (hc : s.connected = true) (hn1 : 1 ≤ n) (hn2 : n ≤ 255) (hlen : ids.length = n) :
    (RoombaOI.startSensorStream (some ids) n s).1 = true
      ∧ (RoombaOI.startSensorStream (some ids) n s).2.tx = s.tx ++ [148, n] ++ ids
      ∧ (RoombaOI.startSensorStream (some ids) n s).2.rx = s.rx
      ∧ (RoombaOI.stopSensorStream s).1 = true
      ∧ (RoombaOI.stopSensorStream s).2.tx = s.tx ++ [148, 0]
      ∧ (RoombaOI.stopSensorStream s).2.rx = s.rx := by
  have hn0 : (n == 0) = false := by
    simp only [beq_eq_false_iff_ne, ne_eq]; omega
  refine ⟨?_, ?_, ?_, ?_, ?_, ?_⟩
  · simp [RoombaOI.startSensorStream, hc, hn0]
  · subst hlen
    simp only [RoombaOI.startSensorStream, hc, hn0, Bool.not_true, Bool.or_self,
      Bool.false_eq_true, if_false, RoombaOI.debugPrintValue_tx]
    rw [RoombaOI.writeArray_tx, RoombaOI.range_map_getD, RoombaOI.sendCommand1_tx _ _ _ hc]
    rfl
  · simp [RoombaOI.startSensorStream, hc, hn0, RoombaOI.sendCommand1]
  · simp [RoombaOI.stopSensorStream, hc]
  · simp [RoombaOI.stopSensorStream, hc, RoombaOI.sendCommand1, OI_STREAM]
  · simp [RoombaOI.stopSensorStream, hc, RoombaOI.sendCommand1]

/-- Instance of C11: the identifiers 7, 22, 23 on a freshly opened instance. -/
theorem startSensorStream_writes_count_then_ids_witness :
    (RoombaOI.begin 19200 (RoombaOI.new 10 11 5 [])).2.connected = true
      ∧ [7, 22, 23].length = 3
      ∧ (RoombaOI.startSensorStream (some [7, 22, 23]) 3
          (RoombaOI.begin 19200 (RoombaOI.new 10 11 5 [])).2).1 = true
      ∧ (RoombaOI.startSensorStream (some [7, 22, 23]) 3
          (RoombaOI.begin 19200 (RoombaOI.new 10 11 5 [])).2).2.tx = [148, 3, 7, 22, 23] :=
  ⟨by decide, by decide,
    (startSensorStream_writes_count_then_ids
      (RoombaOI.begin 19200 (RoombaOI.new 10 11 5 [])).2 [7, 22, 23] 3 (by decide)
      (by decide) (by decide) (by decide)).1,
    (startSensorStream_writes_count_then_ids
      (RoombaOI.begin 19200 (RoombaOI.new 10 11 5 [])).2 [7, 22, 23] 3 (by decide)
      (by decide) (by decide) (by decide)).2.1⟩

/-! ## Idempotence of the lifecycle calls -/

/-- C12: `end` on a connected instance appends exactly the PowerOff byte 133 and leaves the
instance Disconnected; on a Disconnected instance it changes nothing at all; hence `end`
followed by `end` gives the same state, written bytes included, as a single `end`. -/
theorem end_is_idempotent (s : RoombaOI) :
    (s.connected = true →
        (RoombaOI.end_ s).tx = s.tx ++ [133] ∧ (RoombaOI.end_ s).connected = false)
      ∧ (s.connected = false → RoombaOI.end_ s = s)
      ∧ (RoombaOI.end_ s).connected = false
      ∧ RoombaOI.end_ (RoombaOI.end_ s) = RoombaOI.end_ s := by
  have hoff : ∀ t : RoombaOI, t.connected = false → RoombaOI.end_ t = t := by
    intro t ht
    simp [RoombaOI.end_, ht]
  have hdis : (RoombaOI.end_ s).connected = false := by
    cases h : s.connected
    · rw [hoff s h]; exact h
    · simp [RoombaOI.end_, h]
  refine ⟨?_, hoff s, hdis, hoff _ hdis⟩
  intro h
  refine ⟨?_, hdis⟩
  simp [RoombaOI.end_, h, RoombaOI.powerOff, RoombaOI.sendCommand, OI_POWER]

/-- Instance of C12 on a freshly opened instance: `end` writes `[133]`, and so does `end`
followed by `end`. -/
theorem end_is_idempotent_witness :
    (RoombaOI.begin 19200 (RoombaOI.new 10 11 5 [])).2.connected = true
      ∧ (RoombaOI.end_ (RoombaOI.begin 19200 (RoombaOI.new 10 11 5 [])).2).tx = [] ++ [133]
      ∧ RoombaOI.end_ (RoombaOI.end_ (RoombaOI.begin 19200 (RoombaOI.new 10 11 5 [])).2)
        = RoombaOI.end_ (RoombaOI.begin 19200 (RoombaOI.new 10 11 5 [])).2 :=
  ⟨by decide,
    ((end_is_idempotent (RoombaOI.begin 19200 (RoombaOI.new 10 11 5 [])).2).1 (by decide)).1,
    (end_is_idempotent (RoombaOI.begin 19200 (RoombaOI.new 10 11 5 [])).2).2.2.2⟩

/-- C13: `begin` on an already connected instance returns true and changes nothing: no byte
is written, the log of pin, delay and port events is as it was, and the instance is still
connected; and `begin` returns true from every state. -/
theorem begin_on_connected_is_noop (s : RoombaOI) (baudRate : Nat) :
    (s.connected = true →
        RoombaOI.begin baudRate s = (true, s)
          ∧ (RoombaOI.begin baudRate s).2.tx = s.tx
          ∧ (RoombaOI.begin baudRate s).2.hw = s.hw
          ∧ (RoombaOI.begin baudRate s).2.connected = true)
      ∧ (RoombaOI.begin baudRate s).1 = true := by
  refine ⟨?_, ?_⟩
  · intro h
    have hb : RoombaOI.begin baudRate s = (true, s) := by simp [RoombaOI.begin, h]
    rw [hb]
    exact ⟨rfl, rfl, rfl, h⟩
  · unfold RoombaOI.begin
    split <;> rfl

/-- Instance of C13: a second `begin` on an opened instance. -/
theorem begin_on_connected_is_noop_witness :
    (RoombaOI.begin 19200 (RoombaOI.new 10 11 5 [])).2.connected = true
      ∧ RoombaOI.begin 19200 (RoombaOI.begin 19200 (RoombaOI.new 10 11 5 [])).2
        = (true, (RoombaOI.begin 19200 (RoombaOI.new 10 11 5 [])).2) :=
  ⟨by decide,
    ((begin_on_connected_is_noop (RoombaOI.begin 19200 (RoombaOI.new 10 11 5 [])).2 19200).1
      (by decide)).1⟩

/-! ## Actuators and opcodes -/

namespace RoombaOI

theorem setMotors_tx (mainBrush sideBrush vacuum : Bool) (s : RoombaOI)
    (hc : s.connected = true) :
    (setMotors mainBrush sideBrush vacuum s).tx
      = s.tx ++ [138, motorByte mainBrush sideBrush vacuum] := by
  unfold setMotors
  simp only [debugPrintValue_tx]
  rw [sendCommand1_tx _ _ _ hc]
  cases mainBrush <;> cases sideBrush <;> cases vacuum <;> rfl

theorem setLEDs_tx (ledBits powerColor powerIntensity : Nat) (s : RoombaOI)
    (hc : s.connected = true) :
    (setLEDs ledBits powerColor powerIntensity s).tx
      = s.tx ++ [139, ledBits, powerColor, powerIntensity] := by
  unfold setLEDs
  simp only [debugPrint_tx]
  rw [sendCommandN_tx _ _ _ _ hc]
  rfl

end RoombaOI

/-- C14: on a connected instance `setMotors mainBrush sideBrush vacuum` appends exactly 138
and the byte made of side brush 0x01, vacuum 0x02 and main brush 0x04, and so does the facade
verb `setBrushes`; main and side without vacuum give 0x05, the byte is at most 7, and distinct
triples give distinct bytes. -/
theorem setMotors_writes_motor_byte (a : ArduRoomba) (mainBrush sideBrush vacuum : Bool)
    (hc : a.oi.connected = true) :
    (RoombaOI.setMotors mainBrush sideBrush vacuum a.oi).tx
        = a.oi.tx ++ [138, motorByte mainBrush sideBrush vacuum]
      ∧ (ArduRoomba.setBrushes mainBrush sideBrush vacuum a).oi.tx
        = a.oi.tx ++ [138, motorByte mainBrush sideBrush vacuum]
      ∧ motorByte true true false = 0x05
      ∧ motorByte mainBrush sideBrush vacuum ≤ 7
      ∧ (∀ m sb v, motorByte m sb v = motorByte mainBrush sideBrush vacuum →
          m = mainBrush ∧ sb = sideBrush ∧ v = vacuum) := by
  refine ⟨RoombaOI.setMotors_tx _ _ _ _ hc, ?_, by decide, ?_, ?_⟩
  · unfold ArduRoomba.setBrushes
    simp only
    rw [RoombaOI.setMotors_tx _ _ _ _ (by simpa using hc)]
    simp
  · cases mainBrush <;> cases sideBrush <;> cases vacuum <;> decide
  · intro m sb v
    cases mainBrush <;> cases sideBrush <;> cases vacuum <;> cases m <;> cases sb <;> cases v
      <;> decide

/-- Instance of C14: main and side brush on, vacuum off, on a freshly opened facade. -/
theorem setMotors_writes_motor_byte_witness :
    (ArduRoomba.begin 19200 (ArduRoomba.new 10 11 5 [])).2.oi.connected = true
      ∧ (RoombaOI.setMotors true true false
          (ArduRoomba.begin 19200 (ArduRoomba.new 10 11 5 [])).2.oi).tx = [138, 0x05]
      ∧ (ArduRoomba.setBrushes true true false
          (ArduRoomba.begin 19200 (ArduRoomba.new 10 11 5 [])).2).oi.tx = [138, 0x05] :=
  ⟨by decide,
    (setMotors_writes_motor_byte (ArduRoomba.begin 19200 (ArduRoomba.new 10 11 5 [])).2
      true true false (by decide)).1,
    (setMotors_writes_motor_byte (ArduRoomba.begin 19200 (ArduRoomba.new 10 11 5 [])).2
      true true false (by decide)).2.1⟩

/-- C15: on a connected instance the facade verb `setLED debris spot dock checkRobot` appends
a SetLEDs command with a three-byte payload: 139, the indicator byte made of debris 0x01,
spot 0x02, dock 0x04 and check robot 0x08, then the power colour 0 and the power intensity
255; debris and dock alone give the indicator byte 0x05; `setPowerLED` appends 139, 0 and
its two arguments; and `setLEDs l c i` of the protocol layer appends exactly 139, `l`, `c`,
`i`. -/
theorem setLED_writes_indicator_byte (a : ArduRoomba) (debris spot dock checkRobot : Bool)
    (hc : a.oi.connected = true) :
    (ArduRoomba.setLED debris spot dock checkRobot a).oi.tx
        = a.oi.tx ++ [139, ledByte debris spot dock checkRobot, 0, 255]
      ∧ ledByte true false true false = 0x05
      ∧ ledByte debris spot dock checkRobot ≤ 15
      ∧ (∀ color intensity,
          (ArduRoomba.setPowerLED color intensity a).oi.tx
            = a.oi.tx ++ [139, 0, color, intensity])
      ∧ (∀ l c i, (RoombaOI.setLEDs l c i a.oi).tx = a.oi.tx ++ [139, l, c, i]) := by
  refine ⟨?_, by decide, ?_, ?_, ?_⟩
  · unfold ArduRoomba.setLED
    simp only [ArduRoomba.facade_debugPrintValue_tx]
    rw [RoombaOI.setLEDs_tx _ _ _ _ hc]
    cases debris <;> cases spot <;> cases dock <;> cases checkRobot <;> rfl
  · cases debris <;> cases spot <;> cases dock <;> cases checkRobot <;> decide
  · intro color intensity
    unfold ArduRoomba.setPowerLED
    simp only [ArduRoomba.facade_debugPrintValue_tx]
    rw [RoombaOI.setLEDs_tx _ _ _ _ hc]
  · intro l c i
    exact RoombaOI.setLEDs_tx l c i a.oi hc

/-- Instance of C15: debris and dock indicators on a freshly opened facade. -/
theorem setLED_writes_indicator_byte_witness :
    (ArduRoomba.begin 19200 (ArduRoomba.new 10 11 5 [])).2.oi.connected = true
      ∧ (ArduRoomba.setLED true false true false
          (ArduRoomba.begin 19200 (ArduRoomba.new 10 11 5 [])).2).oi.tx
        = [139, 0x05, 0, 255] :=
  ⟨by decide,
    (setLED_writes_indicator_byte (ArduRoomba.begin 19200 (ArduRoomba.new 10 11 5 [])).2
      true false true false (by decide)).1⟩

namespace RoombaOI

theorem sendCommand1_connected (cmd param : Nat) (s : RoombaOI) :
    (sendCommand1 cmd param s).connected = s.connected := by
  unfold sendCommand1; split <;> rfl

theorem sendCommandN_connected (cmd : Nat) (params : Option (List Nat)) (n : Nat)
    (s : RoombaOI) : (sendCommandN cmd params n s).connected = s.connected := by
  unfold sendCommandN
  cases params with
  | none => rfl
  | some a =>
    simp only
    split
    · simp
    · rfl

theorem sendCommand_connected (cmd : Nat) (s : RoombaOI) :
    (sendCommand cmd s).connected = s.connected := by
  unfold sendCommand; split <;> rfl

end RoombaOI

/-- C16: on a connected instance each parameterless command appends exactly one byte, its
opcode: `start` 128, `safeMode` 131, `fullMode` 132, `powerOff` 133, `spot` 134, `clean` 135,
`seekDock` 143; the facade verbs `startCleaning`, `spotClean` and `dock` append 135, 134 and
143. -/
theorem parameterless_commands_write_their_opcode (a : ArduRoomba)
    (hc : a.oi.connected = true) :
    (RoombaOI.start a.oi).tx = a.oi.tx ++ [128]
      ∧ (RoombaOI.safeMode a.oi).tx = a.oi.tx ++ [131]
      ∧ (RoombaOI.fullMode a.oi).tx = a.oi.tx ++ [132]
      ∧ (RoombaOI.powerOff a.oi).tx = a.oi.tx ++ [133]
      ∧ (RoombaOI.spot a.oi).tx = a.oi.tx ++ [134]
      ∧ (RoombaOI.clean a.oi).tx = a.oi.tx ++ [135]
      ∧ (RoombaOI.seekDock a.oi).tx = a.oi.tx ++ [143]
      ∧ (ArduRoomba.startCleaning a).oi.tx = a.oi.tx ++ [135]
      ∧ (ArduRoomba.spotClean a).oi.tx = a.oi.tx ++ [134]
      ∧ (ArduRoomba.dock a).oi.tx = a.oi.tx ++ [143] := by
  have hs : ∀ (cmd : Nat) (s : RoombaOI), s.connected = true →
      (RoombaOI.sendCommand cmd s).tx = s.tx ++ [cmd] :=
    fun cmd s h => RoombaOI.sendCommand_tx cmd s h
  have hf : ∀ msg : String, (ArduRoomba.debugPrint msg a).oi.connected = true := by
    intro msg; simpa using hc
  refine ⟨?_, ?_, ?_, ?_, ?_, ?_, ?_, ?_, ?_, ?_⟩
  · simp [RoombaOI.start, hs _ _ hc, OI_START]
  · simp [RoombaOI.safeMode, hs _ _ hc, OI_SAFE]
  · simp [RoombaOI.fullMode, hs _ _ hc, OI_FULL]
  · simp [RoombaOI.powerOff, hs _ _ hc, OI_POWER]
  · simp [RoombaOI.spot, hs _ _ hc, OI_SPOT]
  · simp [RoombaOI.clean, hs _ _ hc, OI_CLEAN]
  · simp [RoombaOI.seekDock, hs _ _ hc, OI_SEEK_DOCK]
  · simp [ArduRoomba.startCleaning, RoombaOI.clean, hs _ _ (hf _), OI_CLEAN]
  · simp [ArduRoomba.spotClean, RoombaOI.spot, hs _ _ (hf _), OI_SPOT]
  · simp [ArduRoomba.dock, RoombaOI.seekDock, hs _ _ (hf _), OI_SEEK_DOCK]

/-- Instance of C16 on a freshly opened facade: `clean` and `dock`. -/
theorem parameterless_commands_write_their_opcode_witness :
    (ArduRoomba.begin 19200 (ArduRoomba.new 10 11 5 [])).2.oi.connected = true
      ∧ (RoombaOI.clean (ArduRoomba.begin 19200 (ArduRoomba.new 10 11 5 [])).2.oi).tx
        = [] ++ [135]
      ∧ (ArduRoomba.dock (ArduRoomba.begin 19200 (ArduRoomba.new 10 11 5 [])).2).oi.tx
        = [] ++ [143] :=
  ⟨by decide,
    (parameterless_commands_write_their_opcode
      (ArduRoomba.begin 19200 (ArduRoomba.new 10 11 5 [])).2 (by decide)).2.2.2.2.2.1,
    (parameterless_commands_write_their_opcode
      (ArduRoomba.begin 19200 (ArduRoomba.new 10 11 5 [])).2 (by decide)).2.2.2.2.2.2.2.2.2⟩

/-! ## What the stream parser can do to the buffer and to the state -/

namespace RoombaOI

theorem streamOutcome_idle (bufferSize : Nat) (m : Nat → Nat) (s : RoombaOI) :
    StreamOutcome bufferSize m s (false, some m, s) := by
  refine ⟨[], [], ?_, Nat.zero_le _, rfl, by simp, ?_⟩
  · simp [fill_nil]
  · intro h; cases h

theorem streamOutcome_after (bufferSize : Nat) (m : Nat → Nat) (s : RoombaOI)
    (pre rest : List Nat) (r : Bool × Option (Nat → Nat) × RoombaOI)
    (hrx : s.rx = pre ++ rest) (h : StreamOutcome bufferSize m { s with rx := rest } r) :
    StreamOutcome bufferSize m s r := by
  obtain ⟨p, front, h1, h2, h3, h4, h5⟩ := h
  refine ⟨p, pre ++ front, h1, h2, ?_, ?_, ?_⟩
  · rw [h3]
  · simp only at h4
    rw [hrx, h4]
    simp [List.append_assoc]
  · intro ht
    obtain ⟨hp, front', sz, hf, hsz⟩ := h5 ht
    exact ⟨hp, pre ++ front', sz, by rw [hf, List.append_assoc], hsz⟩

theorem readStreamLoop_outcome (bufferSize timeout : Nat) (m : Nat → Nat) :
    ∀ (fuel : Nat) (s : RoombaOI),
      StreamOutcome bufferSize m s (readStreamLoop bufferSize timeout fuel m s) := by
  intro fuel
  induction fuel with
  | zero => intro s; exact streamOutcome_idle bufferSize m s
  | succ fuel ih =>
    intro s
    by_cases hopen : millis s < timeout
    case neg =>
      rw [readStreamLoop_closed _ _ _ _ _ hopen]
      exact streamOutcome_idle bufferSize m s
    rw [readStreamLoop_succ _ _ _ _ _ hopen]
    cases hrx : s.rx with
    | nil =>
      simp only [serialAvailable, hrx, Bool.false_eq_true, if_false]
      exact streamOutcome_idle bufferSize m s
    | cons b rest =>
      simp only [serialAvailable, serialRead, hrx, if_true]
      by_cases hb : ((b : Int) == 19) = true
      · simp only [hb, if_true]
        have hb19 : b = 19 := by
          have h := of_decide_eq_true hb
          omega
        cases rest with
        | nil =>
          simp only [readByte, serialAvailable, Bool.false_eq_true, if_false, gt_iff_lt,
            Nat.lt_irrefl, decide_False, Bool.false_and]
          exact streamOutcome_after bufferSize m s [b] [] _ (by simp [hrx]) (ih _)
        | cons c rest2 =>
          simp only [readByte, serialAvailable, serialRead, if_true]
          split
          · rename_i hv
            simp only [Bool.and_eq_true, decide_eq_true_eq] at hv
            rw [readBytes_eq]
            refine ⟨rest2.take (toUInt8 (c : Int)), [b, c], rfl, ?_, rfl, ?_, ?_⟩
            · simp only [List.length_take]; omega
            · simp [hrx]
            · intro ht
              simp only [decide_eq_true_eq] at ht
              refine ⟨?_, [], c, by simp [hb19], ?_⟩
              · simp only [List.length_take]; omega
              · simp only [List.length_take]; omega
          · exact streamOutcome_after bufferSize m s [b, c] rest2 _ (by simp [hrx]) (ih _)
      · simp only [hb, if_false]
        exact streamOutcome_after bufferSize m s [b] rest _ (by simp [hrx]) (ih _)

theorem readStreamData_outcome (bufferSize : Nat) (m : Nat → Nat) (s : RoombaOI) :
    StreamOutcome bufferSize m s (readStreamData (some m) bufferSize s) := by
  unfold readStreamData
  simp only
  split
  · exact streamOutcome_idle bufferSize m s
  · exact readStreamLoop_outcome bufferSize _ m _ s

end RoombaOI

/-! ## The connected flag -/

namespace RoombaOI

theorem getSensor_connected (id : Nat) (data : Option (Nat → Nat)) (n : Nat) (s : RoombaOI) :
    (getSensor id data n s).2.2.connected = s.connected := by
  cases data with
  | none => simp [getSensor]
  | some m =>
    cases hc : s.connected
    · simp [getSensor, hc]
    · rw [getSensor_eq id m n s hc]
      simp [sendCommand1_connected, hc]

theorem readStreamData_connected (buffer : Option (Nat → Nat)) (bufferSize : Nat)
    (s : RoombaOI) : (readStreamData buffer bufferSize s).2.2.connected = s.connected := by
  cases buffer with
  | none => rfl
  | some m =>
    obtain ⟨_, _, _, _, h3, _, _⟩ := readStreamData_outcome bufferSize m s
    rw [h3]

end RoombaOI

/-- C18: the connected flag changes only through the lifecycle calls.  In every state and for
all arguments, each command, each sensor operation (also when its read times out), each
stream operation (also when a frame is malformed) and `setDebug` leave the flag as it was;
`begin` leaves it set and `end` leaves it cleared. -/
theorem only_begin_and_end_change_connected (s : RoombaOI) :
    (RoombaOI.start s).connected = s.connected
      ∧ (RoombaOI.safeMode s).connected = s.connected
      ∧ (RoombaOI.fullMode s).connected = s.connected
      ∧ (RoombaOI.powerOff s).connected = s.connected
      ∧ (∀ v r, (RoombaOI.drive v r s).connected = s.connected)
      ∧ (∀ r l, (RoombaOI.driveDirect r l s).connected = s.connected)
      ∧ (RoombaOI.stop s).connected = s.connected
      ∧ (RoombaOI.clean s).connected = s.connected
      ∧ (RoombaOI.spot s).connected = s.connected
      ∧ (RoombaOI.seekDock s).connected = s.connected
      ∧ (∀ m sb v, (RoombaOI.setMotors m sb v s).connected = s.connected)
      ∧ (∀ l c i, (RoombaOI.setLEDs l c i s).connected = s.connected)
      ∧ (∀ id data n, (RoombaOI.getSensor id data n s).2.2.connected = s.connected)
      ∧ (RoombaOI.getBatteryVoltage s).2.connected = s.connected
      ∧ (RoombaOI.getBatteryCurrent s).2.connected = s.connected
      ∧ (RoombaOI.isWallDetected s).2.connected = s.connected
      ∧ (RoombaOI.isBumperPressed s).2.connected = s.connected
      ∧ (∀ ids n, (RoombaOI.startSensorStream ids n s).2.connected = s.connected)
      ∧ (RoombaOI.stopSensorStream s).2.connected = s.connected
      ∧ (∀ buffer n, (RoombaOI.readStreamData buffer n s).2.2.connected = s.connected)
      ∧ (∀ enable, (RoombaOI.setDebug enable s).connected = s.connected)
      ∧ (∀ baudRate, (RoombaOI.begin baudRate s).2.connected = true)
      ∧ (RoombaOI.end_ s).connected = false := by
  have hdrive : ∀ v r, (RoombaOI.drive v r s).connected = s.connected := by
    intro v r
    simp [RoombaOI.drive, RoombaOI.sendCommandN_connected]
  refine ⟨?_, ?_, ?_, ?_, hdrive, ?_, hdrive 0 0, ?_, ?_, ?_, ?_, ?_, ?_, ?_, ?_, ?_, ?_, ?_,
    ?_, ?_, ?_, ?_, ?_⟩
  · simp [RoombaOI.start, RoombaOI.sendCommand_connected]
  · simp [RoombaOI.safeMode, RoombaOI.sendCommand_connected]
  · simp [RoombaOI.fullMode, RoombaOI.sendCommand_connected]
  · simp [RoombaOI.powerOff, RoombaOI.sendCommand_connected]
  · intro r l
    simp [RoombaOI.driveDirect, RoombaOI.sendCommandN_connected]
  · simp [RoombaOI.clean, RoombaOI.sendCommand_connected]
  · simp [RoombaOI.spot, RoombaOI.sendCommand_connected]
  · simp [RoombaOI.seekDock, RoombaOI.sendCommand_connected]
  · intro m sb v
    simp [RoombaOI.setMotors, RoombaOI.sendCommand1_connected]
  · intro l c i
    simp [RoombaOI.setLEDs, RoombaOI.sendCommandN_connected]
  · intro id data n
    exact RoombaOI.getSensor_connected id data n s
  · unfold RoombaOI.getBatteryVoltage
    simp only
    split <;> exact RoombaOI.getSensor_connected _ _ _ s
  · unfold RoombaOI.getBatteryCurrent
    simp only
    split <;> exact RoombaOI.getSensor_connected _ _ _ s
  · unfold RoombaOI.isWallDetected
    simp only
    split <;> exact RoombaOI.getSensor_connected _ _ _ s
  · unfold RoombaOI.isBumperPressed
    simp only
    split <;> exact RoombaOI.getSensor_connected _ _ _ s
  · intro ids n
    cases ids with
    | none => rfl
    | some a =>
      unfold RoombaOI.startSensorStream
      simp only
      split
      · rfl
      · simp [RoombaOI.sendCommand1_connected]
  · unfold RoombaOI.stopSensorStream
    split
    · rfl
    · simp [RoombaOI.sendCommand1_connected]
  · intro buffer n
    exact RoombaOI.readStreamData_connected buffer n s
  · intro enable; rfl
  · intro baudRate
    unfold RoombaOI.begin
    split
    · assumption
    · simp
  · unfold RoombaOI.end_
    split
    · rfl
    · simpa using ‹¬ s.connected = true›

/-! ## The size bound of the stream parser -/

/-- C19: for every state, whatever bytes are pending, and every `bufferSize`,
`readStreamData buffer bufferSize` leaves the buffer as it was except for some bytes `p`, at
most `bufferSize` of them, stored at the offsets `0 .. p.length - 1`; every offset from
`bufferSize` on holds what it held before; and when the call returns true the number of bytes
stored is the size byte that followed the header 19, and lies between 1 and `bufferSize`. -/
theorem readStreamData_stays_within_buffer (s : RoombaOI) (m : Nat → Nat) (bufferSize : Nat) :
    ∃ p : List Nat,
      (RoombaOI.readStreamData (some m) bufferSize s).2.1 = some (fill m 0 p)
        ∧ p.length ≤ bufferSize
        ∧ (∀ i, bufferSize ≤ i →
            RoombaOI.deref (RoombaOI.readStreamData (some m) bufferSize s).2.1 i = m i)
        ∧ ((RoombaOI.readStreamData (some m) bufferSize s).1 = true →
            1 ≤ p.length ∧ p.length ≤ bufferSize ∧ ∃ (front : List Nat) (sz : Nat),
              s.rx = front ++ [19, sz] ++ p
                  ++ (RoombaOI.readStreamData (some m) bufferSize s).2.2.rx
                ∧ toUInt8 (sz : Int) = p.length) := by
  obtain ⟨p, front, h1, h2, _, h4, h5⟩ := RoombaOI.readStreamData_outcome bufferSize m s
  refine ⟨p, h1, h2, ?_, ?_⟩
  · intro i hi
    rw [h1]
    simp only [RoombaOI.deref, fill]
    rw [if_neg (by omega)]
  · intro ht
    obtain ⟨hp, front', sz, hf, hsz⟩ := h5 ht
    refine ⟨hp, h2, front', sz, ?_, hsz⟩
    rw [h4, hf]

/-- Instance of C19: the size byte 250 with a ten-byte buffer, followed by a frame of two
bytes; offsets 10 and up of the buffer are untouched and two bytes are stored. -/
theorem readStreamData_stays_within_buffer_witness :
    (∀ i, 10 ≤ i →
        RoombaOI.deref (RoombaOI.readStreamData (some RoombaOI.localArray) 10
          (RoombaOI.begin 19200 (RoombaOI.new 10 11 5 [19, 250, 1, 19, 2, 8, 9])).2).2.1 i
          = RoombaOI.localArray i)
      ∧ (RoombaOI.readStreamData (some RoombaOI.localArray) 10
          (RoombaOI.begin 19200 (RoombaOI.new 10 11 5 [19, 250, 1, 19, 2, 8, 9])).2).1 = true
      ∧ RoombaOI.deref (RoombaOI.readStreamData (some RoombaOI.localArray) 10
          (RoombaOI.begin 19200 (RoombaOI.new 10 11 5 [19, 250, 1, 19, 2, 8, 9])).2).2.1 1 = 9 :=
  ⟨(readStreamData_stays_within_buffer
      (RoombaOI.begin 19200 (RoombaOI.new 10 11 5 [19, 250, 1, 19, 2, 8, 9])).2
      RoombaOI.localArray 10).elim (fun _ h => h.2.2.1),
    by decide, by decide⟩

/-! ## Round trip of the drive payload -/

namespace RoombaOI

theorem getBatteryCurrent_value (s : RoombaOI) (b0 b1 : Nat) (rest : List Nat)
    (hc : s.connected = true) (h0 : b0 < 256) (h1 : b1 < 256)
    (hrx : s.rx = b0 :: b1 :: rest) :
    (getBatteryCurrent s).1 = toInt16 ((256 * b0 + b1 : Nat) : Int) := by
  have hi := getSensor_eq SENSOR_CURRENT localArray 2 s hc
  have hlen : decide (2 ≤ s.rx.length) = true := by simp [hrx]
  have htake : s.rx.take 2 = [b0, b1] := by simp [hrx]
  rw [hlen, htake] at hi
  unfold getBatteryCurrent
  simp only [hi, if_true, deref, fill_two_0 _ b0 b1 h0, fill_two_1 _ b0 b1 h1, be16 b0 b1 h1]

theorem decode_hi_lo (x : Int) (h : -32768 ≤ x ∧ x ≤ 32767) :
    hi x < 256 ∧ lo x < 256 ∧ toInt16 ((256 * hi x + lo x : Nat) : Int) = x := by
  unfold hi lo twosComplement16 toInt16
  omega

end RoombaOI

/-- C20: for 16-bit signed `v` and `r`, `drive v r` on a connected instance appends 137 and
four payload bytes such that `getBatteryCurrent`, on any connected instance that receives
payload bytes 1-2 as its response, returns the velocity saturated to `[-500, 500]` (which is
`v` itself when `v` is in that range, 500 above it and -500 below it), and on receiving
payload bytes 3-4 returns `r`; and `drive (saturate v) r` writes the same bytes as
`drive v r`. -/
theorem drive_payload_round_trip (s : RoombaOI) (v r : Int) (hc : s.connected = true)
    (hv : -32768 ≤ v ∧ v ≤ 32767) (hr : -32768 ≤ r ∧ r ≤ 32767) :
    ∃ b1 b2 b3 b4 : Nat,
      (RoombaOI.drive v r s).tx = s.tx ++ [137, b1, b2, b3, b4]
        ∧ (∀ (t : RoombaOI) (rest : List Nat), t.connected = true → t.rx = b1 :: b2 :: rest →
            (RoombaOI.getBatteryCurrent t).1 = saturate v)
        ∧ (∀ (t : RoombaOI) (rest : List Nat), t.connected = true → t.rx = b3 :: b4 :: rest →
            (RoombaOI.getBatteryCurrent t).1 = r)
        ∧ (-500 ≤ saturate v ∧ saturate v ≤ 500)
        ∧ (-500 ≤ v → v ≤ 500 → saturate v = v)
        ∧ (500 < v → saturate v = 500)
        ∧ (v < -500 → saturate v = -500)
        ∧ (RoombaOI.drive (saturate v) r s).tx = (RoombaOI.drive v r s).tx := by
  have hsat : -500 ≤ saturate v ∧ saturate v ≤ 500 := by unfold saturate; omega
  have hidem : saturate (saturate v) = saturate v := by unfold saturate; omega
  have htx : ∀ w : Int, (RoombaOI.drive w r s).tx
      = s.tx ++ [137, hi (saturate w), lo (saturate w), hi r, lo r] := by
    intro w
    unfold RoombaOI.drive
    simp only [RoombaOI.debugPrintValue_tx, clamp_eq_saturate]
    rw [RoombaOI.sendCommandN_four_tx _ _ _ _ _ _ hc, highByte_eq_hi, lowByte_eq_lo,
      highByte_eq_hi, lowByte_eq_lo]
    rfl
  obtain ⟨hv1, hv2, hv3⟩ := RoombaOI.decode_hi_lo (saturate v) (by omega)
  obtain ⟨hr1, hr2, hr3⟩ := RoombaOI.decode_hi_lo r hr
  refine ⟨hi (saturate v), lo (saturate v), hi r, lo r, htx v, ?_, ?_, hsat, ?_, ?_, ?_, ?_⟩
  · intro t rest ht hrx
    rw [RoombaOI.getBatteryCurrent_value t _ _ rest ht hv1 hv2 hrx, hv3]
  · intro t rest ht hrx
    rw [RoombaOI.getBatteryCurrent_value t _ _ rest ht hr1 hr2 hrx, hr3]
  · intro h1 h2; unfold saturate; omega
  · intro h; unfold saturate; omega
  · intro h; unfold saturate; omega
  · rw [htx, htx, hidem]

/-- Instance of C20 at velocity 700 and radius -1: the payload `[1, 244, 255, 255]` reads
back as 500 and -1. -/
theorem drive_payload_round_trip_witness :
    (RoombaOI.begin 19200 (RoombaOI.new 10 11 5 [])).2.connected = true
      ∧ ((-32768 : Int) ≤ 700 ∧ (700 : Int) ≤ 32767)
      ∧ ((-32768 : Int) ≤ -1 ∧ (-1 : Int) ≤ 32767)
      ∧ (RoombaOI.getBatteryCurrent
          (RoombaOI.begin 19200 (RoombaOI.new 10 11 5 [1, 244])).2).1 = 500
      ∧ (RoombaOI.getBatteryCurrent
          (RoombaOI.begin 19200 (RoombaOI.new 10 11 5 [255, 255])).2).1 = -1
      ∧ (RoombaOI.drive (saturate 700) (-1)
          (RoombaOI.begin 19200 (RoombaOI.new 10 11 5 [])).2).tx
        = (RoombaOI.drive 700 (-1) (RoombaOI.begin 19200 (RoombaOI.new 10 11 5 [])).2).tx :=
  ⟨by decide, by decide, by decide, by decide, by decide,
    (drive_payload_round_trip (RoombaOI.begin 19200 (RoombaOI.new 10 11 5 [])).2 700 (-1)
      (by decide) (by decide) (by decide)).elim
      (fun _ h => h.elim (fun _ h => h.elim (fun _ h => h.elim (fun _ h => h.2.2.2.2.2.2.2))))⟩

/-! ## Motion verbs of the facade -/

namespace RoombaOI

theorem drive_tx (velocity radius : Int) (s : RoombaOI) (hc : s.connected = true) :
    (drive velocity radius s).tx
      = s.tx ++ [137, hi (saturate velocity), lo (saturate velocity), hi radius, lo radius] := by
  unfold drive
  simp only [debugPrintValue_tx, clamp_eq_saturate]
  rw [sendCommandN_four_tx _ _ _ _ _ _ hc, highByte_eq_hi, lowByte_eq_lo, highByte_eq_hi,
    lowByte_eq_lo]
  rfl

end RoombaOI

namespace ArduRoomba

theorem moveForward_tx (speed : Int) (a : ArduRoomba) (hc : a.oi.connected = true) :
    (moveForward speed a).oi.tx
      = a.oi.tx ++ [137, hi (saturate speed), lo (saturate speed), 0x80, 0x00] := by
  unfold moveForward
  simp only
  rw [RoombaOI.drive_tx _ _ _ (by simpa using hc), facade_debugPrintValue_tx]
  rfl

theorem moveBackward_tx (speed : Int) (a : ArduRoomba) (hc : a.oi.connected = true) :
    (moveBackward speed a).oi.tx
      = a.oi.tx ++ [137, hi (saturate (toInt16 (-speed))), lo (saturate (toInt16 (-speed))),
          0x80, 0x00] := by
  unfold moveBackward
  simp only
  rw [RoombaOI.drive_tx _ _ _ (by simpa using hc), facade_debugPrintValue_tx]
  rfl

end ArduRoomba

/-- C21: on a connected instance, for a 16-bit signed `speed` with `c` its saturation to
`[-500, 500]`, `moveForward speed` appends 137, the high and low byte of `c`, 0x80, 0x00 (the
constant 32768 narrowed to 16 bits); `turnLeft speed` appends 137, the bytes of `c`, 0x00,
0x01; `turnRight speed` appends 137, the bytes of `c`, 0xFF, 0xFF; and `stop`, of the facade
and of the protocol layer, appends 137, 0, 0, 0, 0. -/
theorem motion_verbs_write_drive_with_fixed_radius (a : ArduRoomba) (speed : Int)
    (hc : a.oi.connected = true) (hs : -32768 ≤ speed ∧ speed ≤ 32767) :
    (ArduRoomba.moveForward speed a).oi.tx
        = a.oi.tx ++ [137, hi (saturate speed), lo (saturate speed), 0x80, 0x00]
      ∧ (ArduRoomba.turnLeft speed a).oi.tx
        = a.oi.tx ++ [137, hi (saturate speed), lo (saturate speed), 0x00, 0x01]
      ∧ (ArduRoomba.turnRight speed a).oi.tx
        = a.oi.tx ++ [137, hi (saturate speed), lo (saturate speed), 0xFF, 0xFF]
      ∧ (ArduRoomba.stop a).oi.tx = a.oi.tx ++ [137, 0, 0, 0, 0]
      ∧ (RoombaOI.stop a.oi).tx = a.oi.tx ++ [137, 0, 0, 0, 0]
      ∧ toInt16 DRIVE_STRAIGHT = -32768 := by
  refine ⟨ArduRoomba.moveForward_tx speed a hc, ?_, ?_, ?_, ?_, by decide⟩
  · unfold ArduRoomba.turnLeft
    simp only
    rw [RoombaOI.drive_tx _ _ _ (by simpa using hc), ArduRoomba.facade_debugPrintValue_tx]
    rfl
  · unfold ArduRoomba.turnRight
    simp only
    rw [RoombaOI.drive_tx _ _ _ (by simpa using hc), ArduRoomba.facade_debugPrintValue_tx]
    rfl
  · unfold ArduRoomba.stop RoombaOI.stop
    simp only
    rw [RoombaOI.drive_tx _ _ _ (by simpa using hc), ArduRoomba.facade_debugPrint_tx]
    rfl
  · unfold RoombaOI.stop
    rw [RoombaOI.drive_tx _ _ _ hc]
    rfl

/-- Instance of C21 at speed 700 (saturated to 500 = 0x01F4) on a freshly opened facade. -/
theorem motion_verbs_write_drive_with_fixed_radius_witness :
    (ArduRoomba.begin 19200 (ArduRoomba.new 10 11 5 [])).2.oi.connected = true
      ∧ ((-32768 : Int) ≤ 700 ∧ (700 : Int) ≤ 32767)
      ∧ (ArduRoomba.moveForward 700 (ArduRoomba.begin 19200 (ArduRoomba.new 10 11 5 [])).2).oi.tx
        = [137, 0x01, 0xF4, 0x80, 0x00]
      ∧ (ArduRoomba.turnLeft 700 (ArduRoomba.begin 19200 (ArduRoomba.new 10 11 5 [])).2).oi.tx
        = [137, 0x01, 0xF4, 0x00, 0x01]
      ∧ (ArduRoomba.turnRight 700 (ArduRoomba.begin 19200 (ArduRoomba.new 10 11 5 [])).2).oi.tx
        = [137, 0x01, 0xF4, 0xFF, 0xFF]
      ∧ (ArduRoomba.stop (ArduRoomba.begin 19200 (ArduRoomba.new 10 11 5 [])).2).oi.tx
        = [137, 0, 0, 0, 0] :=
  ⟨by decide, by decide,
    (motion_verbs_write_drive_with_fixed_radius
      (ArduRoomba.begin 19200 (ArduRoomba.new 10 11 5 [])).2 700 (by decide)
      (by decide)).1.trans (by decide),
    (motion_verbs_write_drive_with_fixed_radius
      (ArduRoomba.begin 19200 (ArduRoomba.new 10 11 5 [])).2 700 (by decide)
      (by decide)).2.1.trans (by decide),
    (motion_verbs_write_drive_with_fixed_radius
      (ArduRoomba.begin 19200 (ArduRoomba.new 10 11 5 [])).2 700 (by decide)
      (by decide)).2.2.1.trans (by decide),
    (motion_verbs_write_drive_with_fixed_radius
      (ArduRoomba.begin 19200 (ArduRoomba.new 10 11 5 [])).2 700 (by decide)
      (by decide)).2.2.2.1.trans (by decide)⟩

/-- Above the least 16-bit value `moveBackward` is the mirror image of `moveForward`: for
`-32768 < speed ≤ 32767` on a connected instance it appends 137, the bytes of the negated
saturated speed, 0x80, 0x00. -/
theorem moveBackward_negates_above_minimum (a : ArduRoomba) (speed : Int)
    (hc : a.oi.connected = true) (hs : -32768 < speed ∧ speed ≤ 32767) :
    (ArduRoomba.moveBackward speed a).oi.tx
        = a.oi.tx ++ [137, hi (-(saturate speed)), lo (-(saturate speed)), 0x80, 0x00]
      ∧ saturate (toInt16 (-speed)) = -(saturate speed) := by
  have hneg : saturate (toInt16 (-speed)) = -(saturate speed) := by
    unfold saturate toInt16; omega
  refine ⟨?_, hneg⟩
  rw [ArduRoomba.moveBackward_tx speed a hc, hneg]

/-- C22: at the speed -32768 on a freshly opened facade `moveBackward` and `moveForward`
append the same five bytes, 137, 0xFE, 0x0C, 0x80, 0x00: the negation wraps back to -32768,
so both encode the velocity -500 and neither is the negation of the other; the radius bytes
0x80, 0x00 are the same, as claimed. -/
theorem moveBackward_at_minimum_equals_moveForward :
    (ArduRoomba.begin 19200 (ArduRoomba.new 10 11 5 [])).2.oi.connected = true
      ∧ toInt16 (-(-32768)) = -32768
      ∧ (ArduRoomba.moveBackward (-32768)
          (ArduRoomba.begin 19200 (ArduRoomba.new 10 11 5 [])).2).oi.tx
        = [137, 0xFE, 0x0C, 0x80, 0x00]
      ∧ (ArduRoomba.moveForward (-32768)
          (ArduRoomba.begin 19200 (ArduRoomba.new 10 11 5 [])).2).oi.tx
        = [137, 0xFE, 0x0C, 0x80, 0x00]
      ∧ toInt16 ((256 * 0xFE + 0x0C : Nat) : Int) = -500
      ∧ (-500 : Int) ≠ -(-500) :=
  ⟨by decide, by decide,
    (ArduRoomba.moveBackward_tx (-32768) (ArduRoomba.begin 19200 (ArduRoomba.new 10 11 5 [])).2
      (by decide)).trans (by decide),
    (ArduRoomba.moveForward_tx (-32768) (ArduRoomba.begin 19200 (ArduRoomba.new 10 11 5 [])).2
      (by decide)).trans (by decide),
    by decide, by decide⟩
